import Mathlib

/-!
Shallow embedding of the uniblox-ecommerce backend core
(`backend/dataStore.js`, `backend/cartService.js`, `backend/discountService.js`,
`backend/orderService.js`, and the admin route of `backend/server.js`).

Modelling conventions:
* JS numbers are modelled as `ℚ` (all amounts in this system are exact
  decimals; `Number.prototype.toFixed(2)` followed by `parseFloat` is
  modelled as `round2`, rounding half towards +∞ at two decimals, which is
  what `toFixed` specifies for exactly-representable inputs).
* JS `Map` objects are modelled as association lists (`JMap` below);
  `Map.set` on an existing key updates in place preserving insertion order,
  on a new key appends at the end — `setKey` mirrors this.
* `uuidv4()` and `new Date()` are external collaborators; every operation
  that consumes a fresh identifier or a timestamp takes it as an explicit
  argument (`orderId`, `freshCode`, `now`).
* A JS method that mutates the singleton `dataStore` becomes a function
  returning the new `DataStore`; a method that can `throw` returns
  `Except String _` paired with the resulting store (mutations performed
  before the throw persist, exactly as in JS).
-/

abbrev JMap (α : Type) : Type := List (String × α)

/-- Models `Map.get`: first binding of the key, if any. -/
def lookupKey {α : Type} (k : String) : JMap α → Option α
  | [] => none
  | (k', v) :: rest => if k' = k then some v else lookupKey k rest

/-- Models `Map.set`: replace the first binding of the key in place, else append. -/
def setKey {α : Type} (k : String) (v : α) : JMap α → JMap α
  | [] => [(k, v)]
  | (k', v') :: rest => if k' = k then (k', v) :: rest else (k', v') :: setKey k v rest

/-- A catalog product (`dataStore.js` products map entries). -/
structure Product where
  id : String
  name : String
  price : ℚ
  stock : ℚ
deriving Repr, DecidableEq

/-- A cart line (`cartService.js` pushes `{productId, name, price, quantity}`). -/
structure CartItem where
  productId : String
  name : String
  price : ℚ
  quantity : ℚ
deriving Repr, DecidableEq

/-- A stored cart (`{userId, items}`). -/
structure Cart where
  userId : String
  items : List CartItem
deriving Repr, DecidableEq

/-- A discount-code record (`discountService.js` `discountInfo`).
Timestamps are abstract instants (`ℕ`). -/
structure DiscountInfo where
  code : String
  discountPercentage : ℚ
  generatedAt : ℕ
  used : Bool
  usedAt : Option ℕ
  orderNumber : ℤ
deriving Repr, DecidableEq

/-- A committed order (`orderService.js` `order` object). -/
structure Order where
  id : String
  userId : String
  items : List CartItem
  subtotal : ℚ
  discount : ℚ
  finalAmount : ℚ
  discountCode : Option String
  discountPercentage : ℚ
  createdAt : ℕ
  status : String
deriving Repr, DecidableEq

/-- The discount configuration (`dataStore.config`). -/
structure Config where
  nthOrder : ℤ
  discountPercentage : ℚ
deriving Repr, DecidableEq

/-- The whole in-memory store (`dataStore.js` singleton state). -/
structure DataStore where
  products : JMap Product
  carts : JMap Cart
  orders : JMap Order
  discountCodes : JMap DiscountInfo
  orderCounter : ℤ
  config : Config
deriving Repr, DecidableEq

/-- Models `dataStore.getProduct(productId)`. -/
def getProduct (st : DataStore) (pid : String) : Option Product :=
  lookupKey pid st.products

/-- Models `dataStore.getCart(userId)`: lazily inserts an empty cart for an unknown
user (a store mutation!), then returns the cart. -/
def dsGetCart (st : DataStore) (u : String) : Cart × DataStore :=
  match lookupKey u st.carts with
  | some c => (c, st)
  | none => (⟨u, []⟩, { st with carts := setKey u ⟨u, []⟩ st.carts })

/-- Models `dataStore.updateCart(userId, cart)`. -/
def updateCart (st : DataStore) (u : String) (c : Cart) : DataStore :=
  { st with carts := setKey u c st.carts }

/-- Models `dataStore.clearCart(userId)`. -/
def dsClearCart (st : DataStore) (u : String) : DataStore :=
  { st with carts := setKey u ⟨u, []⟩ st.carts }

/-- Models `dataStore.createOrder(order)`: increments the counter and stores the
order under its id. -/
def createOrder (st : DataStore) (o : Order) : DataStore :=
  { st with orderCounter := st.orderCounter + 1, orders := setKey o.id o st.orders }

/-- Models `dataStore.getOrderCount()`. -/
def getOrderCount (st : DataStore) : ℤ := st.orderCounter

/-- Models `dataStore.createDiscountCode(code, discountInfo)`. -/
def createDiscountCode (st : DataStore) (code : String) (info : DiscountInfo) : DataStore :=
  { st with discountCodes := setKey code info st.discountCodes }

/-- Models `dataStore.markDiscountAsUsed(code)`: sets `used = true` and stamps
`usedAt`; a silent no-op when the code is unknown. -/
def markDiscountAsUsed (st : DataStore) (code : String) (now : ℕ) : DataStore :=
  match lookupKey code st.discountCodes with
  | none => st
  | some d =>
      { st with discountCodes :=
          setKey code { d with used := true, usedAt := some now } st.discountCodes }

/-- Models `parseFloat(x.toFixed(2))`: round to two decimals, half towards +∞
(`⌊x + 1/2⌋`, i.e. Mathlib's `round`, spelled out so `norm_num` evaluates it). -/
def round2 (q : ℚ) : ℚ := ((⌊q * 100 + 1/2⌋ : ℤ) : ℚ) / 100

/-- The cart view returned by `CartService.getCart`. -/
structure CartView where
  userId : String
  items : List CartItem
  totalItems : ℚ
  subtotal : ℚ
deriving Repr, DecidableEq

/-- Models `cart.items.reduce((sum, item) => sum + item.price * item.quantity, 0)`. -/
def cartSubtotal (items : List CartItem) : ℚ :=
  items.foldl (fun s it => s + it.price * it.quantity) 0

/-- Models `cart.items.reduce((sum, item) => sum + item.quantity, 0)`. -/
def cartTotalItems (items : List CartItem) : ℚ :=
  items.foldl (fun s it => s + it.quantity) 0

/-- Models `CartService.getCart(userId)`: reads the stored cart (lazily creating it)
and computes the totals. -/
def getCartView (u : String) (st : DataStore) : CartView × DataStore :=
  let (c, st') := dsGetCart st u
  (⟨c.userId, c.items, cartTotalItems c.items, round2 (cartSubtotal c.items)⟩, st')

/-- The `Insufficient stock. Only N items available` message. -/
def insufficientMsg (stock : ℚ) : String :=
  "Insufficient stock. Only " ++ toString stock ++ " items available"

/-- Models `cart.items[existingItemIndex].quantity = newQuantity`: update the first
line with the given product id. -/
def bumpQty (pid : String) (newQty : ℚ) : List CartItem → List CartItem
  | [] => []
  | it :: rest =>
      if it.productId = pid then { it with quantity := newQty } :: rest
      else it :: bumpQty pid newQty rest

/-- Models `cart.items.splice(itemIndex, 1)`: drop the first line with the given
product id. -/
def removeFirst (pid : String) : List CartItem → List CartItem
  | [] => []
  | it :: rest => if it.productId = pid then rest else it :: removeFirst pid rest

/-- Models `CartService.addToCart(userId, productId, quantity)`. `!userId` is
modelled as `u = ""` (the only falsy `String`). -/
def addToCart (u pid : String) (qty : ℚ) (st : DataStore) :
    Except String CartView × DataStore :=
  if u = "" ∨ pid = "" then (.error "User ID and Product ID are required", st)
  else if qty ≤ 0 then (.error "Quantity must be greater than 0", st)
  else match getProduct st pid with
    | none => (.error "Product not found", st)
    | some p =>
      if p.stock < qty then (.error (insufficientMsg p.stock), st)
      else
        let (cart, st1) := dsGetCart st u
        match cart.items.find? (fun it => it.productId == pid) with
        | some it =>
            let newQty := it.quantity + qty
            if p.stock < newQty then (.error (insufficientMsg p.stock), st1)
            else
              let st2 := updateCart st1 u { cart with items := bumpQty pid newQty cart.items }
              let (v, st3) := getCartView u st2
              (.ok v, st3)
        | none =>
            let st2 := updateCart st1 u
              { cart with items := cart.items ++ [⟨pid, p.name, p.price, qty⟩] }
            let (v, st3) := getCartView u st2
            (.ok v, st3)

/-- Models `CartService.updateCartItem(userId, productId, quantity)`.
When the cart line exists but the product has vanished from the catalog the
JS code would crash reading `product.stock`; products are never removed, so
that path is modelled as a signaled failure. -/
def updateCartItem (u pid : String) (qty : ℚ) (st : DataStore) :
    Except String CartView × DataStore :=
  if u = "" ∨ pid = "" then (.error "User ID and Product ID are required", st)
  else if qty < 0 then (.error "Quantity cannot be negative", st)
  else
    let (cart, st1) := dsGetCart st u
    match cart.items.find? (fun it => it.productId == pid) with
    | none => (.error "Item not found in cart", st1)
    | some _ =>
      if qty = 0 then
        let st2 := updateCart st1 u { cart with items := removeFirst pid cart.items }
        let (v, st3) := getCartView u st2
        (.ok v, st3)
      else match getProduct st1 pid with
        | none => (.error "Cannot read properties of undefined", st1)
        | some p =>
          if p.stock < qty then (.error (insufficientMsg p.stock), st1)
          else
            let st2 := updateCart st1 u { cart with items := bumpQty pid qty cart.items }
            let (v, st3) := getCartView u st2
            (.ok v, st3)

/-- Models `CartService.removeFromCart(userId, productId)`. -/
def removeFromCart (u pid : String) (st : DataStore) :
    Except String CartView × DataStore :=
  updateCartItem u pid 0 st

/-- Models `CartService.clearCart(userId)`. -/
def clearCartS (u : String) (st : DataStore) : DataStore :=
  dsClearCart st u

/-- The `Insufficient stock for NAME. Only N available` message of
`validateCart`. -/
def stockMsg (name : String) (stock : ℚ) : String :=
  "Insufficient stock for " ++ name ++ ". Only " ++ toString stock ++ " available"

/-- The per-item loop of `CartService.validateCart`: first failure message,
if any. -/
def checkItems (st : DataStore) : List CartItem → Option String
  | [] => none
  | it :: rest =>
      match getProduct st it.productId with
      | none => some ("Product " ++ it.name ++ " not found")
      | some p =>
          if p.stock < it.quantity then some (stockMsg it.name p.stock)
          else checkItems st rest

/-- Models `CartService.validateCart(userId)`: `{isValid:false, message}` is
modelled as `.error message`, `{isValid:true, cart}` as `.ok cart`. -/
def validateCart (u : String) (st : DataStore) :
    Except String CartView × DataStore :=
  let (v, st1) := getCartView u st
  if v.items = [] then (.error "Cart is empty", st1)
  else match checkItems st1 v.items with
    | some msg => (.error msg, st1)
    | none => (.ok v, st1)

/-- The test `orderNumber % nthOrder !== 0` of `generateDiscountCode`.
JS `%` is the remainder with the sign of the dividend (`Int.tmod`), and
`x % 0` is `NaN`, which is `!== 0`. -/
def qualifiesNth (orderNumber nth : ℤ) : Bool :=
  if nth = 0 then false else orderNumber.tmod nth == 0

/-- Models `DiscountService.generateDiscountCode(orderNumber)`; the unique
`DISC-...` string from `createUniqueCode` is the `freshCode` argument. -/
def generateDiscountCode (orderNumber : ℤ) (freshCode : String) (now : ℕ)
    (st : DataStore) : Option DiscountInfo × DataStore :=
  if qualifiesNth orderNumber st.config.nthOrder then
    let info : DiscountInfo :=
      { code := freshCode, discountPercentage := st.config.discountPercentage,
        generatedAt := now, used := false, usedAt := none, orderNumber := orderNumber }
    (some info, createDiscountCode st freshCode info)
  else (none, st)

/-- Result of `DiscountService.validateDiscountCode`: the JS code returns
`{isValid:false, message}` (plus `usedAt` in the already-used case) or
`{isValid:true, discountPercentage, discountInfo}`. -/
inductive DiscountValidation where
  | invalid (message : String) (usedAt : Option ℕ)
  | valid (discountPercentage : ℚ) (info : DiscountInfo)
deriving Repr, DecidableEq

/-- Models `DiscountService.validateDiscountCode(code)`; `!code` is `code = ""`. -/
def validateDiscountCode (code : String) (st : DataStore) : DiscountValidation :=
  if code = "" then .invalid "Discount code is required" none
  else match lookupKey code st.discountCodes with
    | none => .invalid "Invalid discount code" none
    | some d =>
        if d.used then .invalid "Discount code has already been used" d.usedAt
        else .valid d.discountPercentage d

/-- Result of `DiscountService.applyDiscount`. -/
structure AppliedDiscount where
  originalAmount : ℚ
  discount : ℚ
  finalAmount : ℚ
  discountPercentage : ℚ
deriving Repr, DecidableEq

/-- Models `DiscountService.applyDiscount(amount, discountPercentage)`. -/
def applyDiscount (amount percentage : ℚ) : AppliedDiscount :=
  let discount := amount * percentage / 100
  let finalAmount := amount - discount
  { originalAmount := round2 amount, discount := round2 discount,
    finalAmount := round2 finalAmount, discountPercentage := percentage }

/-- Models `OrderService.updateProductStock(items)`: decrement each ordered
product's stock, skipping unknown products. -/
def updateProductStock (items : List CartItem) (st : DataStore) : DataStore :=
  items.foldl
    (fun s it =>
      match getProduct s it.productId with
      | none => s
      | some p =>
          { s with products :=
              setKey it.productId { p with stock := p.stock - it.quantity } s.products })
    st

/-- The `newDiscountCode` payload surfaced by a successful checkout. -/
structure NewCodeInfo where
  code : String
  discountPercentage : ℚ
  message : String
deriving Repr, DecidableEq

/-- Result of a successful `OrderService.checkout`. -/
structure CheckoutResult where
  order : Order
  message : String
  newDiscountCode : Option NewCodeInfo
deriving Repr, DecidableEq

/-- The congratulation message attached to a freshly minted reward code. -/
def rewardMsg (pct : ℚ) : String :=
  "Congratulations! You\x27ve earned a " ++ toString pct ++
    "% discount code for your next purchase!"

/-- The order object built by `OrderService.checkout`.  `ordCode` and
`applied` reflect `discountCode || null` and `appliedDiscount`. -/
def mkOrder (u : String) (ordCode : Option String)
    (applied : Option AppliedDiscount) (orderId : String) (now : ℕ)
    (cart : CartView) : Order :=
  { id := orderId, userId := u,
    items := cart.items,  -- `items.map(item => ({...item}))`: a deep copy is the identity here
    subtotal := cart.subtotal,
    discount := match applied with | some a => a.discount | none => 0,
    finalAmount := match applied with | some a => a.finalAmount | none => cart.subtotal,
    discountCode := ordCode,
    discountPercentage := match applied with | some a => a.discountPercentage | none => 0,
    createdAt := now, status := "completed" }

/-- The commit phase of `OrderService.checkout` (everything after the two
validations): build the order, save it, mark the code used if one was
applied, decrement stock, clear the cart, and mint a reward code from the
post-increment counter. `ordCode` and `applied` are both present exactly
when a (truthy) discount code validated successfully. -/
def finishCheckout (u : String) (ordCode : Option String)
    (applied : Option AppliedDiscount) (orderId freshCode : String) (now : ℕ)
    (cart : CartView) (st1 : DataStore) :
    Except String CheckoutResult × DataStore :=
  let order : Order := mkOrder u ordCode applied orderId now cart
  let st2 := createOrder st1 order
  let st3 := match ordCode with
    | some c => markDiscountAsUsed st2 c now
    | none => st2
  let st4 := updateProductStock order.items st3
  let st5 := dsClearCart st4 u
  let (newCode, st6) := generateDiscountCode (getOrderCount st5) freshCode now st5
  (.ok { order := order, message := "Order placed successfully",
         newDiscountCode := newCode.map
           (fun d => ⟨d.code, d.discountPercentage, rewardMsg d.discountPercentage⟩) },
   st6)

/-- Models `OrderService.checkout(userId, discountCode = null)`. A supplied empty
string is falsy in `if (discountCode)`, so it is treated as no code. -/
def checkout (u : String) (discountCode : Option String)
    (orderId freshCode : String) (now : ℕ) (st : DataStore) :
    Except String CheckoutResult × DataStore :=
  match validateCart u st with
  | (.error msg, st1) => (.error msg, st1)
  | (.ok cart, st1) =>
    match discountCode with
    | none => finishCheckout u none none orderId freshCode now cart st1
    | some c =>
      if c = "" then finishCheckout u none none orderId freshCode now cart st1
      else match validateDiscountCode c st1 with
        | .invalid msg _ => (.error msg, st1)
        | .valid pct _ =>
            finishCheckout u (some c) (some (applyDiscount cart.subtotal pct))
              orderId freshCode now cart st1

/-- The seeded catalog of `dataStore.js`. -/
def initialProducts : JMap Product :=
  [("1", ⟨"1", "Laptop", 1000, 10⟩),
   ("2", ⟨"2", "Mouse", 25, 50⟩),
   ("3", ⟨"3", "Keyboard", 75, 30⟩),
   ("4", ⟨"4", "Monitor", 300, 15⟩),
   ("5", ⟨"5", "Headphones", 150, 25⟩)]

/-- The freshly constructed `dataStore.js` singleton. -/
def initialStore : DataStore :=
  { products := initialProducts, carts := [], orders := [], discountCodes := [],
    orderCounter := 0, config := { nthOrder := 3, discountPercentage := 10 } }

/-- The `POST /api/admin/generate-discount` route of `server.js`:
`!orderNumber` rejects the falsy `0` before the service is reached. -/
def adminGenerateDiscount (orderNumber : ℤ) (freshCode : String) (now : ℕ)
    (st : DataStore) : Except String (Option DiscountInfo) × DataStore :=
  if orderNumber = 0 then (.error "orderNumber is required", st)
  else
    let (d, st') := generateDiscountCode orderNumber freshCode now st
    (.ok d, st')

/-- The `isOk` discriminator for checkout results. -/
def exOk {α : Type} : Except String α → Bool
  | .ok _ => true
  | .error _ => false

/-- Placeholder order used by `resOrder` on the error branch. -/
def dummyOrder : Order :=
  { id := "", userId := "", items := [], subtotal := 0, discount := 0,
    finalAmount := 0, discountCode := none, discountPercentage := 0,
    createdAt := 0, status := "" }

/-- Project the order out of a checkout outcome. -/
def resOrder : Except String CheckoutResult → Order
  | .ok r => r.order
  | .error _ => dummyOrder

/-- Project the reward code out of a checkout outcome. -/
def resNewCode : Except String CheckoutResult → Option NewCodeInfo
  | .ok r => r.newDiscountCode
  | .error _ => none

/-- Quantity of the cart line for a product, `0` when absent. -/
def qtyOf (pid : String) (items : List CartItem) : ℚ :=
  match items.find? (fun it => it.productId == pid) with
  | some it => it.quantity
  | none => 0

/-- A discount code is recorded as consumed in the store. -/
def codeUsed (code : String) (st : DataStore) : Prop :=
  ∃ d, lookupKey code st.discountCodes = some d ∧ d.used = true

/-- Every catalog product has non-negative stock. -/
def stocksNonneg (st : DataStore) : Prop :=
  ∀ pid p, lookupKey pid st.products = some p → 0 ≤ p.stock

/-- Every stored cart has at most one line per product. -/
def cartsNodup (st : DataStore) : Prop :=
  ∀ u c, lookupKey u st.carts = some c → (c.items.map (fun it => it.productId)).Nodup

/-- The store invariant: non-negative stock together with per-product-unique
cart lines (the latter is needed because checkout decrements stock once per
order line). -/
def StoreInv (st : DataStore) : Prop := stocksNonneg st ∧ cartsNodup st

/-- A store whose user `u` holds 2 Laptops and where two orders have already
been committed (used as a concrete checkout scenario). -/
def wChkSt : DataStore :=
  { initialStore with
    carts := [("u", ⟨"u", [⟨"1", "Laptop", 1000, 2⟩]⟩)],
    orderCounter := 2 }

/-- A store whose user `u` already holds 9 Laptops (stock 10). -/
def cexSt : DataStore :=
  { initialStore with carts := [("u", ⟨"u", [⟨"1", "Laptop", 1000, 9⟩]⟩)] }

/-- A store holding one already-consumed discount code. -/
def wUsedSt : DataStore :=
  { initialStore with
    discountCodes := [("DISC-A", ⟨"DISC-A", 10, 0, true, some 7, 3⟩)] }

example : round2 (99.99 * 15 / 100) = 15 := by norm_num [round2]
example : (applyDiscount 100 10).discount = 10 := by norm_num [applyDiscount, round2]
example : (applyDiscount 100 10).finalAmount = 90 := by norm_num [applyDiscount, round2]

/-! ### Map lemmas -/

theorem lookupKey_setKey_self {α : Type} (k : String) (v : α) (m : JMap α) :
    lookupKey k (setKey k v m) = some v := by
  induction m with
  | nil => simp [setKey, lookupKey]
  | cons hd tl ih =>
    obtain ⟨k', v'⟩ := hd
    by_cases h : k' = k <;> simp [setKey, lookupKey, h, ih]

theorem lookupKey_setKey_ne {α : Type} {k k' : String} (v : α) (m : JMap α)
    (h : k ≠ k') : lookupKey k' (setKey k v m) = lookupKey k' m := by
  induction m with
  | nil => simp [setKey, lookupKey, h]
  | cons hd tl ih =>
    obtain ⟨k'', v''⟩ := hd
    by_cases hk : k'' = k
    · subst hk
      simp [setKey, lookupKey, h]
    · simp [setKey, lookupKey, hk, ih]

theorem lookupKey_setKey {α : Type} (k k' : String) (v : α) (m : JMap α) :
    lookupKey k' (setKey k v m) = if k = k' then some v else lookupKey k' m := by
  by_cases h : k = k'
  · subst h; simp [lookupKey_setKey_self]
  · simp [h, lookupKey_setKey_ne v m h]

theorem setKey_setKey_self {α : Type} (k : String) (v v' : α) (m : JMap α) :
    setKey k v' (setKey k v m) = setKey k v' m := by
  induction m with
  | nil => simp [setKey]
  | cons hd tl ih =>
    obtain ⟨k'', v''⟩ := hd
    by_cases hk : k'' = k <;> simp [setKey, hk, ih]

theorem lookupKey_mem {α : Type} {k : String} {v : α} : ∀ {m : JMap α},
    lookupKey k m = some v → (k, v) ∈ m
  | [], h => by simp [lookupKey] at h
  | (k', v') :: rest, h => by
    by_cases hk : k' = k
    · subst hk
      simp [lookupKey] at h
      simp [h]
    · simp [lookupKey, hk] at h
      exact List.mem_cons_of_mem _ (lookupKey_mem h)

/-! ### Frame lemmas: which store components each primitive touches -/

@[simp] theorem dsGetCart_products (st : DataStore) (u : String) :
    (dsGetCart st u).2.products = st.products := by
  unfold dsGetCart; cases lookupKey u st.carts <;> rfl

@[simp] theorem dsGetCart_orders (st : DataStore) (u : String) :
    (dsGetCart st u).2.orders = st.orders := by
  unfold dsGetCart; cases lookupKey u st.carts <;> rfl

@[simp] theorem dsGetCart_discountCodes (st : DataStore) (u : String) :
    (dsGetCart st u).2.discountCodes = st.discountCodes := by
  unfold dsGetCart; cases lookupKey u st.carts <;> rfl

@[simp] theorem dsGetCart_orderCounter (st : DataStore) (u : String) :
    (dsGetCart st u).2.orderCounter = st.orderCounter := by
  unfold dsGetCart; cases lookupKey u st.carts <;> rfl

@[simp] theorem dsGetCart_config (st : DataStore) (u : String) :
    (dsGetCart st u).2.config = st.config := by
  unfold dsGetCart; cases lookupKey u st.carts <;> rfl

@[simp] theorem getCartView_snd_products (st : DataStore) (u : String) :
    (getCartView u st).2.products = st.products := by
  simp [getCartView]

@[simp] theorem getCartView_snd_orders (st : DataStore) (u : String) :
    (getCartView u st).2.orders = st.orders := by
  simp [getCartView]

@[simp] theorem getCartView_snd_discountCodes (st : DataStore) (u : String) :
    (getCartView u st).2.discountCodes = st.discountCodes := by
  simp [getCartView]

@[simp] theorem getCartView_snd_orderCounter (st : DataStore) (u : String) :
    (getCartView u st).2.orderCounter = st.orderCounter := by
  simp [getCartView]

@[simp] theorem getCartView_snd_config (st : DataStore) (u : String) :
    (getCartView u st).2.config = st.config := by
  simp [getCartView]

@[simp] theorem markDiscountAsUsed_products (st : DataStore) (c : String) (now : ℕ) :
    (markDiscountAsUsed st c now).products = st.products := by
  unfold markDiscountAsUsed; cases lookupKey c st.discountCodes <;> rfl

@[simp] theorem markDiscountAsUsed_carts (st : DataStore) (c : String) (now : ℕ) :
    (markDiscountAsUsed st c now).carts = st.carts := by
  unfold markDiscountAsUsed; cases lookupKey c st.discountCodes <;> rfl

@[simp] theorem markDiscountAsUsed_orders (st : DataStore) (c : String) (now : ℕ) :
    (markDiscountAsUsed st c now).orders = st.orders := by
  unfold markDiscountAsUsed; cases lookupKey c st.discountCodes <;> rfl

@[simp] theorem markDiscountAsUsed_orderCounter (st : DataStore) (c : String) (now : ℕ) :
    (markDiscountAsUsed st c now).orderCounter = st.orderCounter := by
  unfold markDiscountAsUsed; cases lookupKey c st.discountCodes <;> rfl

@[simp] theorem markDiscountAsUsed_config (st : DataStore) (c : String) (now : ℕ) :
    (markDiscountAsUsed st c now).config = st.config := by
  unfold markDiscountAsUsed; cases lookupKey c st.discountCodes <;> rfl

@[simp] theorem updateProductStock_carts (items : List CartItem) (st : DataStore) :
    (updateProductStock items st).carts = st.carts := by
  induction items generalizing st with
  | nil => rfl
  | cons it rest ih =>
    show (updateProductStock rest _).carts = _
    rw [ih]
    rcases h : getProduct st it.productId with _ | p <;> simp [h]

@[simp] theorem updateProductStock_orders (items : List CartItem) (st : DataStore) :
    (updateProductStock items st).orders = st.orders := by
  induction items generalizing st with
  | nil => rfl
  | cons it rest ih =>
    show (updateProductStock rest _).orders = _
    rw [ih]
    rcases h : getProduct st it.productId with _ | p <;> simp [h]

@[simp] theorem updateProductStock_discountCodes (items : List CartItem) (st : DataStore) :
    (updateProductStock items st).discountCodes = st.discountCodes := by
  induction items generalizing st with
  | nil => rfl
  | cons it rest ih =>
    show (updateProductStock rest _).discountCodes = _
    rw [ih]
    rcases h : getProduct st it.productId with _ | p <;> simp [h]

@[simp] theorem updateProductStock_orderCounter (items : List CartItem) (st : DataStore) :
    (updateProductStock items st).orderCounter = st.orderCounter := by
  induction items generalizing st with
  | nil => rfl
  | cons it rest ih =>
    show (updateProductStock rest _).orderCounter = _
    rw [ih]
    rcases h : getProduct st it.productId with _ | p <;> simp [h]

@[simp] theorem updateProductStock_config (items : List CartItem) (st : DataStore) :
    (updateProductStock items st).config = st.config := by
  induction items generalizing st with
  | nil => rfl
  | cons it rest ih =>
    show (updateProductStock rest _).config = _
    rw [ih]
    rcases h : getProduct st it.productId with _ | p <;> simp [h]

@[simp] theorem generateDiscountCode_snd_products (n : ℤ) (fc : String) (now : ℕ)
    (st : DataStore) : (generateDiscountCode n fc now st).2.products = st.products := by
  unfold generateDiscountCode
  split <;> rfl

@[simp] theorem generateDiscountCode_snd_carts (n : ℤ) (fc : String) (now : ℕ)
    (st : DataStore) : (generateDiscountCode n fc now st).2.carts = st.carts := by
  unfold generateDiscountCode
  split <;> rfl

@[simp] theorem generateDiscountCode_snd_orders (n : ℤ) (fc : String) (now : ℕ)
    (st : DataStore) : (generateDiscountCode n fc now st).2.orders = st.orders := by
  unfold generateDiscountCode
  split <;> rfl

@[simp] theorem generateDiscountCode_snd_orderCounter (n : ℤ) (fc : String) (now : ℕ)
    (st : DataStore) : (generateDiscountCode n fc now st).2.orderCounter = st.orderCounter := by
  unfold generateDiscountCode
  split <;> rfl

@[simp] theorem generateDiscountCode_snd_config (n : ℤ) (fc : String) (now : ℕ)
    (st : DataStore) : (generateDiscountCode n fc now st).2.config = st.config := by
  unfold generateDiscountCode
  split <;> rfl

@[simp] theorem updateCart_products (st : DataStore) (u : String) (c : Cart) :
    (updateCart st u c).products = st.products := rfl

@[simp] theorem updateCart_orders (st : DataStore) (u : String) (c : Cart) :
    (updateCart st u c).orders = st.orders := rfl

@[simp] theorem updateCart_discountCodes (st : DataStore) (u : String) (c : Cart) :
    (updateCart st u c).discountCodes = st.discountCodes := rfl

@[simp] theorem updateCart_orderCounter (st : DataStore) (u : String) (c : Cart) :
    (updateCart st u c).orderCounter = st.orderCounter := rfl

@[simp] theorem updateCart_config (st : DataStore) (u : String) (c : Cart) :
    (updateCart st u c).config = st.config := rfl

@[simp] theorem dsClearCart_products (st : DataStore) (u : String) :
    (dsClearCart st u).products = st.products := rfl

@[simp] theorem dsClearCart_orders (st : DataStore) (u : String) :
    (dsClearCart st u).orders = st.orders := rfl

@[simp] theorem dsClearCart_discountCodes (st : DataStore) (u : String) :
    (dsClearCart st u).discountCodes = st.discountCodes := rfl

@[simp] theorem dsClearCart_orderCounter (st : DataStore) (u : String) :
    (dsClearCart st u).orderCounter = st.orderCounter := rfl

@[simp] theorem dsClearCart_config (st : DataStore) (u : String) :
    (dsClearCart st u).config = st.config := rfl

@[simp] theorem dsClearCart_carts (st : DataStore) (u : String) :
    (dsClearCart st u).carts = setKey u ⟨u, []⟩ st.carts := rfl

@[simp] theorem createOrder_products (st : DataStore) (o : Order) :
    (createOrder st o).products = st.products := rfl

@[simp] theorem createOrder_carts (st : DataStore) (o : Order) :
    (createOrder st o).carts = st.carts := rfl

@[simp] theorem createOrder_discountCodes (st : DataStore) (o : Order) :
    (createOrder st o).discountCodes = st.discountCodes := rfl

@[simp] theorem createOrder_orderCounter (st : DataStore) (o : Order) :
    (createOrder st o).orderCounter = st.orderCounter + 1 := rfl

@[simp] theorem createOrder_config (st : DataStore) (o : Order) :
    (createOrder st o).config = st.config := rfl

@[simp] theorem createOrder_orders (st : DataStore) (o : Order) :
    (createOrder st o).orders = setKey o.id o st.orders := rfl

@[simp] theorem createDiscountCode_products (st : DataStore) (c : String) (i : DiscountInfo) :
    (createDiscountCode st c i).products = st.products := rfl

@[simp] theorem createDiscountCode_carts (st : DataStore) (c : String) (i : DiscountInfo) :
    (createDiscountCode st c i).carts = st.carts := rfl

@[simp] theorem createDiscountCode_orderCounter (st : DataStore) (c : String) (i : DiscountInfo) :
    (createDiscountCode st c i).orderCounter = st.orderCounter := rfl

/-! ### Read stability of the lazy cart creation -/

theorem dsGetCart_self (st : DataStore) (u : String) :
    dsGetCart (dsGetCart st u).2 u = ((dsGetCart st u).1, (dsGetCart st u).2) := by
  unfold dsGetCart
  rcases h : lookupKey u st.carts with _ | c
  · simp [h, lookupKey_setKey_self]
  · simp [h]

theorem getCartView_eq (u : String) (st : DataStore) :
    getCartView u st =
      (⟨(dsGetCart st u).1.userId, (dsGetCart st u).1.items,
        cartTotalItems (dsGetCart st u).1.items,
        round2 (cartSubtotal (dsGetCart st u).1.items)⟩,
       (dsGetCart st u).2) := rfl

theorem getCartView_stable (u : String) (st : DataStore) :
    getCartView u (getCartView u st).2 = ((getCartView u st).1, (getCartView u st).2) := by
  rw [getCartView_eq u st, getCartView_eq u (dsGetCart st u).2, dsGetCart_self]

/-! ### `checkItems` facts -/

theorem checkItems_congr {st st' : DataStore} (h : st.products = st'.products) :
    ∀ items, checkItems st items = checkItems st' items
  | [] => rfl
  | it :: rest => by
    have hg : getProduct st it.productId = getProduct st' it.productId := by
      unfold getProduct; rw [h]
    unfold checkItems
    rw [hg]
    rcases getProduct st' it.productId with _ | p
    · rfl
    · by_cases hs : p.stock < it.quantity <;>
        simp [hs, checkItems_congr h rest]

theorem checkItems_none_sound {st : DataStore} : ∀ {items : List CartItem},
    checkItems st items = none →
    ∀ it ∈ items, ∃ p, getProduct st it.productId = some p ∧ it.quantity ≤ p.stock := by
  intro items
  induction items with
  | nil => intro _ it hit; simp at hit
  | cons hd tl ih =>
    intro h it hit
    unfold checkItems at h
    rcases hp : getProduct st hd.productId with _ | p <;> rw [hp] at h
    · simp at h
    · by_cases hs : p.stock < hd.quantity
      · simp [hs] at h
      · simp [hs] at h
        rcases List.mem_cons.mp hit with rfl | htl
        · exact ⟨p, hp, not_lt.mp hs⟩
        · exact ih h it htl

/-! ### `validateCart` characterization -/

theorem validateCart_snd (u : String) (st : DataStore) :
    (validateCart u st).2 = (getCartView u st).2 := by
  unfold validateCart
  rcases h : getCartView u st with ⟨v, st1⟩
  simp only [h]
  split
  · rfl
  · split <;> rfl

theorem validateCart_ok {u : String} {st : DataStore} {cart : CartView}
    (h : (validateCart u st).1 = .ok cart) :
    cart = (getCartView u st).1 ∧ cart.items ≠ [] ∧
    checkItems (getCartView u st).2 cart.items = none := by
  unfold validateCart at h
  rcases hgv : getCartView u st with ⟨v, st1⟩
  rw [hgv] at h
  simp only at h
  split at h
  · simp at h
  · rcases hci : checkItems st1 v.items with _ | msg <;> rw [hci] at h
    · simp at h
      subst h
      refine ⟨by simp [hgv], by assumption, by simp [hgv, hci]⟩
    · simp at h

/-! ### `qtyOf` and `updateProductStock` -/

theorem qtyOf_nil (pid : String) : qtyOf pid [] = 0 := rfl

theorem qtyOf_cons_self {it : CartItem} {pid : String} (h : it.productId = pid)
    (rest : List CartItem) : qtyOf pid (it :: rest) = it.quantity := by
  simp [qtyOf, List.find?, h]

theorem qtyOf_cons_ne {it : CartItem} {pid : String} (h : ¬it.productId = pid)
    (rest : List CartItem) : qtyOf pid (it :: rest) = qtyOf pid rest := by
  simp only [qtyOf, List.find?]
  rw [show (it.productId == pid) = false by simp [h]]

theorem qtyOf_eq_zero {pid : String} {items : List CartItem}
    (h : ∀ it ∈ items, it.productId ≠ pid) : qtyOf pid items = 0 := by
  induction items with
  | nil => rfl
  | cons hd tl ih =>
    rw [qtyOf_cons_ne (h hd (by simp)) tl]
    exact ih fun it hit => h it (List.mem_cons_of_mem _ hit)

theorem updateProductStock_nil (st : DataStore) : updateProductStock [] st = st := rfl

theorem updateProductStock_cons (it : CartItem) (rest : List CartItem) (st : DataStore) :
    updateProductStock (it :: rest) st =
      updateProductStock rest
        (match getProduct st it.productId with
         | none => st
         | some p =>
             { st with products :=
                 setKey it.productId { p with stock := p.stock - it.quantity } st.products }) :=
  rfl

theorem sub_zero_stock (p : Product) : { p with stock := p.stock - 0 } = p := by
  cases p; simp

theorem updateProductStock_lookup (pid : String) :
    ∀ (items : List CartItem) (st : DataStore),
    (items.map (fun it => it.productId)).Nodup →
    lookupKey pid (updateProductStock items st).products =
      (lookupKey pid st.products).map
        (fun p => { p with stock := p.stock - qtyOf pid items }) := by
  intro items
  induction items with
  | nil =>
    intro st _
    rw [updateProductStock_nil, qtyOf_nil]
    rcases h : lookupKey pid st.products with _ | p
    · rfl
    · simp [sub_zero_stock]
  | cons it rest ih =>
    intro st hnd
    have hhd : it.productId ∉ rest.map (fun x => x.productId) :=
      (List.nodup_cons.mp hnd).1
    have htl := (List.nodup_cons.mp hnd).2
    rw [updateProductStock_cons]
    by_cases hpid : it.productId = pid
    · subst hpid
      have hq0 : qtyOf it.productId rest = 0 :=
        qtyOf_eq_zero fun x hx hxe => hhd (hxe ▸ List.mem_map_of_mem _ hx)
      rw [qtyOf_cons_self rfl]
      rcases hp : getProduct st it.productId with _ | p
      · rw [ih st htl, hq0]
        unfold getProduct at hp
        simp [hp]
      · rw [ih _ htl, hq0]
        unfold getProduct at hp
        simp [lookupKey_setKey_self, hp, sub_zero_stock]
    · rw [qtyOf_cons_ne hpid rest]
      rcases hp : getProduct st it.productId with _ | p
      · rw [ih st htl]
      · rw [ih _ htl]
        simp only
        rw [lookupKey_setKey_ne _ _ hpid]

/-! ### `finishCheckout` structure -/

theorem finishCheckout_fst (u : String) (oc : Option String) (ap : Option AppliedDiscount)
    (oid fc : String) (now : ℕ) (cart : CartView) (st1 : DataStore) :
    (finishCheckout u oc ap oid fc now cart st1).1 =
      .ok { order := mkOrder u oc ap oid now cart,
            message := "Order placed successfully",
            newDiscountCode :=
              if qualifiesNth (st1.orderCounter + 1) st1.config.nthOrder then
                some ⟨fc, st1.config.discountPercentage,
                      rewardMsg st1.config.discountPercentage⟩
              else none } := by
  cases oc <;>
    · unfold finishCheckout
      simp only [generateDiscountCode, getOrderCount, dsClearCart_orderCounter,
        dsClearCart_config, updateProductStock_orderCounter, updateProductStock_config,
        markDiscountAsUsed_orderCounter, markDiscountAsUsed_config,
        createOrder_orderCounter, createOrder_config]
      split <;> simp

theorem finishCheckout_snd_orderCounter (u : String) (oc : Option String)
    (ap : Option AppliedDiscount) (oid fc : String) (now : ℕ) (cart : CartView)
    (st1 : DataStore) :
    (finishCheckout u oc ap oid fc now cart st1).2.orderCounter = st1.orderCounter + 1 := by
  cases oc <;>
    · unfold finishCheckout
      simp only [generateDiscountCode, getOrderCount]
      split <;> simp

theorem finishCheckout_snd_carts (u : String) (oc : Option String)
    (ap : Option AppliedDiscount) (oid fc : String) (now : ℕ) (cart : CartView)
    (st1 : DataStore) :
    (finishCheckout u oc ap oid fc now cart st1).2.carts = setKey u ⟨u, []⟩ st1.carts := by
  cases oc <;>
    · unfold finishCheckout
      simp only [generateDiscountCode, getOrderCount]
      split <;> simp

theorem finishCheckout_snd_products (u : String) (oc : Option String)
    (ap : Option AppliedDiscount) (oid fc : String) (now : ℕ) (cart : CartView)
    (st1 : DataStore) (pid : String)
    (hnd : (cart.items.map (fun it => it.productId)).Nodup) :
    lookupKey pid (finishCheckout u oc ap oid fc now cart st1).2.products =
      (lookupKey pid st1.products).map
        (fun p => { p with stock := p.stock - qtyOf pid cart.items }) := by
  cases oc with
  | none =>
    unfold finishCheckout
    simp only [generateDiscountCode, getOrderCount]
    split <;>
      · simp only [createDiscountCode_products, dsClearCart_products]
        rw [show (mkOrder u none ap oid now cart).items = cart.items from rfl]
        rw [updateProductStock_lookup pid cart.items _ hnd]
        simp
  | some c =>
    unfold finishCheckout
    simp only [generateDiscountCode, getOrderCount]
    split <;>
      · simp only [createDiscountCode_products, dsClearCart_products]
        rw [show (mkOrder u (some c) ap oid now cart).items = cart.items from rfl]
        rw [updateProductStock_lookup pid cart.items _ hnd]
        simp

/-! ### `validateDiscountCode` congruence and result helpers -/

theorem validateDiscountCode_congr {st st' : DataStore}
    (h : st.discountCodes = st'.discountCodes) (c : String) :
    validateDiscountCode c st = validateDiscountCode c st' := by
  unfold validateDiscountCode
  rw [h]

@[simp] theorem exOk_ok {α : Type} (r : α) : exOk (.ok r : Except String α) = true := rfl

@[simp] theorem exOk_error {α : Type} (e : String) :
    exOk (.error e : Except String α) = false := rfl

@[simp] theorem resOrder_ok (r : CheckoutResult) : resOrder (.ok r) = r.order := rfl

@[simp] theorem resNewCode_ok (r : CheckoutResult) :
    resNewCode (.ok r) = r.newDiscountCode := rfl

/-! ### `checkout` case analysis -/

theorem checkout_error_cases {u : String} {dc : Option String} {oid fc : String} {now : ℕ}
    {st : DataStore} {e : String}
    (h : (checkout u dc oid fc now st).1 = .error e) :
    (checkout u dc oid fc now st).2 = (getCartView u st).2 ∧
    ((validateCart u st).1 = .error e ∨
      ∃ c, dc = some c ∧ ∃ ua, validateDiscountCode c st = .invalid e ua) := by
  have hv2 := validateCart_snd u st
  rcases hv : validateCart u st with ⟨rv, st1⟩
  have hst1 : st1 = (getCartView u st).2 := by rw [hv] at hv2; exact hv2
  simp only [checkout, hv]
  simp only [checkout, hv] at h
  cases rv with
  | error msg =>
    replace h : (Except.error msg : Except String CheckoutResult) = .error e := h
    have : msg = e := by simpa using h
    subst this
    exact ⟨hst1, Or.inl rfl⟩
  | ok cart =>
    cases dc with
    | none =>
      replace h : (finishCheckout u none none oid fc now cart st1).1 = .error e := h
      rw [finishCheckout_fst] at h
      simp at h
    | some c =>
      replace h : (if c = "" then finishCheckout u none none oid fc now cart st1
          else match validateDiscountCode c st1 with
            | .invalid msg _ => ((.error msg : Except String CheckoutResult), st1)
            | .valid pct _ =>
                finishCheckout u (some c) (some (applyDiscount cart.subtotal pct))
                  oid fc now cart st1).1 = .error e := h
      by_cases hc : c = ""
      · rw [if_pos hc] at h
        rw [finishCheckout_fst] at h
        simp at h
      · rw [if_neg hc] at h
        rcases hvd : validateDiscountCode c st1 with ⟨msg, ua⟩ | ⟨pct, info⟩ <;>
          rw [hvd] at h
        · replace h : (Except.error msg : Except String CheckoutResult) = .error e := h
          have : msg = e := by simpa using h
          subst this
          refine ⟨?_, Or.inr ⟨c, rfl, ua, ?_⟩⟩
          · show ((if c = "" then finishCheckout u none none oid fc now cart st1
                else match validateDiscountCode c st1 with
                  | .invalid msg _ => ((.error msg : Except String CheckoutResult), st1)
                  | .valid pct _ =>
                      finishCheckout u (some c) (some (applyDiscount cart.subtotal pct))
                        oid fc now cart st1).2 = (getCartView u st).2)
            rw [if_neg hc, hvd]
            exact hst1
          · have hcg : validateDiscountCode c st1 = validateDiscountCode c st :=
              validateDiscountCode_congr (by rw [hst1]; simp) c
            rw [← hcg, hvd]
        · rw [finishCheckout_fst] at h
          simp at h

theorem checkout_ok_shape {u : String} {dc : Option String} {oid fc : String} {now : ℕ}
    {st : DataStore} (h : exOk (checkout u dc oid fc now st).1 = true) :
    (validateCart u st).1 = .ok (getCartView u st).1 ∧
    ∃ oc ap, checkout u dc oid fc now st =
      finishCheckout u oc ap oid fc now (getCartView u st).1 (getCartView u st).2 := by
  have hv2 := validateCart_snd u st
  rcases hv : validateCart u st with ⟨rv, st1⟩
  have hst1 : st1 = (getCartView u st).2 := by rw [hv] at hv2; exact hv2
  simp only [checkout, hv] at h ⊢
  cases rv with
  | error msg =>
    replace h : exOk (Except.error msg : Except String CheckoutResult) = true := h
    simp [exOk] at h
  | ok cart =>
    have hok : (validateCart u st).1 = .ok cart := by rw [hv]
    obtain ⟨hcart, -, -⟩ := validateCart_ok hok
    subst hcart
    refine ⟨rfl, ?_⟩
    cases dc with
    | none =>
      refine ⟨none, none, ?_⟩
      show finishCheckout u none none oid fc now (getCartView u st).1 st1 = _
      rw [hst1]
    | some c =>
      replace h : exOk (if c = "" then finishCheckout u none none oid fc now
            (getCartView u st).1 st1
          else match validateDiscountCode c st1 with
            | .invalid msg _ => ((.error msg : Except String CheckoutResult), st1)
            | .valid pct _ =>
                finishCheckout u (some c)
                  (some (applyDiscount (getCartView u st).1.subtotal pct))
                  oid fc now (getCartView u st).1 st1).1 = true := h
      by_cases hc : c = ""
      · refine ⟨none, none, ?_⟩
        show ((if c = "" then finishCheckout u none none oid fc now (getCartView u st).1 st1
            else match validateDiscountCode c st1 with
              | .invalid msg _ => ((.error msg : Except String CheckoutResult), st1)
              | .valid pct _ =>
                  finishCheckout u (some c)
                    (some (applyDiscount (getCartView u st).1.subtotal pct))
                    oid fc now (getCartView u st).1 st1) =
          finishCheckout u none none oid fc now (getCartView u st).1 (getCartView u st).2)
        rw [if_pos hc, hst1]
      · rw [if_neg hc] at h
        rcases hvd : validateDiscountCode c st1 with ⟨msg, ua⟩ | ⟨pct, info⟩ <;>
          rw [hvd] at h
        · replace h : exOk (Except.error msg : Except String CheckoutResult) = true := h
          simp [exOk] at h
        · refine ⟨some c, some (applyDiscount (getCartView u st).1.subtotal pct), ?_⟩
          show ((if c = "" then finishCheckout u none none oid fc now (getCartView u st).1 st1
              else match validateDiscountCode c st1 with
                | .invalid msg _ => ((.error msg : Except String CheckoutResult), st1)
                | .valid pct _ =>
                    finishCheckout u (some c)
                      (some (applyDiscount (getCartView u st).1.subtotal pct))
                      oid fc now (getCartView u st).1 st1) =
            finishCheckout u (some c)
              (some (applyDiscount (getCartView u st).1.subtotal pct))
              oid fc now (getCartView u st).1 (getCartView u st).2)
          rw [if_neg hc, hvd, hst1]

theorem checkout_none_ok {u : String} {oid fc : String} {now : ℕ} {st : DataStore}
    (h : exOk (checkout u none oid fc now st).1 = true) :
    checkout u none oid fc now st =
      finishCheckout u none none oid fc now (getCartView u st).1 (getCartView u st).2 := by
  have hv2 := validateCart_snd u st
  rcases hv : validateCart u st with ⟨rv, st1⟩
  have hst1 : st1 = (getCartView u st).2 := by rw [hv] at hv2; exact hv2
  simp only [checkout, hv] at h ⊢
  cases rv with
  | error msg =>
    replace h : exOk (Except.error msg : Except String CheckoutResult) = true := h
    simp [exOk] at h
  | ok cart =>
    have hok : (validateCart u st).1 = .ok cart := by rw [hv]
    obtain ⟨hcart, -, -⟩ := validateCart_ok hok
    subst hcart
    show finishCheckout u none none oid fc now (getCartView u st).1 st1 = _
    rw [hst1]

/-! ### Shapes of the cart-service operations -/

theorem addToCart_snd_shape (u pid : String) (q : ℚ) (st : DataStore) :
    (addToCart u pid q st).2 = st ∨
    (addToCart u pid q st).2 = (dsGetCart st u).2 ∨
    (∃ newQty, (addToCart u pid q st).2 =
        (getCartView u (updateCart (dsGetCart st u).2 u
          ⟨(dsGetCart st u).1.userId, bumpQty pid newQty (dsGetCart st u).1.items⟩)).2) ∨
    (∃ p, getProduct st pid = some p ∧
      (dsGetCart st u).1.items.find? (fun it => it.productId == pid) = none ∧
      (addToCart u pid q st).2 =
        (getCartView u (updateCart (dsGetCart st u).2 u
          ⟨(dsGetCart st u).1.userId,
           (dsGetCart st u).1.items ++ [⟨pid, p.name, p.price, q⟩]⟩)).2) := by
  unfold addToCart
  split
  · exact Or.inl rfl
  split
  · exact Or.inl rfl
  rcases hp : getProduct st pid with _ | p <;> simp only [hp]
  · first
    | exact Or.inl rfl
    | exact Or.inl trivial
  split
  · first
    | exact Or.inl rfl
    | exact Or.inl trivial
  rcases hg : dsGetCart st u with ⟨c0, st1⟩
  simp only [hg]
  rcases hf : c0.items.find? (fun it => it.productId == pid) with _ | it <;>
    simp only [hf]
  · refine Or.inr (Or.inr (Or.inr ⟨p, ?_⟩))
    simp
  · split
    · refine Or.inr (Or.inl ?_)
      simp
    · refine Or.inr (Or.inr (Or.inl ⟨it.quantity + q, ?_⟩))
      simp

theorem updateCartItem_snd_shape (u pid : String) (q : ℚ) (st : DataStore) :
    (updateCartItem u pid q st).2 = st ∨
    (updateCartItem u pid q st).2 = (dsGetCart st u).2 ∨
    ((updateCartItem u pid q st).2 =
        (getCartView u (updateCart (dsGetCart st u).2 u
          ⟨(dsGetCart st u).1.userId, removeFirst pid (dsGetCart st u).1.items⟩)).2) ∨
    (∃ newQty, (updateCartItem u pid q st).2 =
        (getCartView u (updateCart (dsGetCart st u).2 u
          ⟨(dsGetCart st u).1.userId, bumpQty pid newQty (dsGetCart st u).1.items⟩)).2) := by
  unfold updateCartItem
  split
  · exact Or.inl rfl
  split
  · exact Or.inl rfl
  rcases hg : dsGetCart st u with ⟨c0, st1⟩
  simp only [hg]
  rcases hf : c0.items.find? (fun it => it.productId == pid) with _ | it <;>
    simp only [hf]
  · refine Or.inr (Or.inl ?_)
    simp
  · split
    · refine Or.inr (Or.inr (Or.inl ?_))
      simp
    · rcases hp : getProduct st1 pid with _ | p <;> simp only [hp]
      · refine Or.inr (Or.inl ?_)
        simp
      · split
        · refine Or.inr (Or.inl ?_)
          simp
        · refine Or.inr (Or.inr (Or.inr ⟨q, ?_⟩))
          simp

/-! ### Frame lemmas for the cart-service operations -/

theorem addToCart_products (u pid : String) (q : ℚ) (st : DataStore) :
    (addToCart u pid q st).2.products = st.products := by
  rcases addToCart_snd_shape u pid q st with h | h | ⟨nq, h⟩ | ⟨p, -, -, h⟩ <;>
    rw [h] <;> simp [updateCart]

theorem addToCart_orders (u pid : String) (q : ℚ) (st : DataStore) :
    (addToCart u pid q st).2.orders = st.orders := by
  rcases addToCart_snd_shape u pid q st with h | h | ⟨nq, h⟩ | ⟨p, -, -, h⟩ <;>
    rw [h] <;> simp [updateCart]

theorem addToCart_discountCodes (u pid : String) (q : ℚ) (st : DataStore) :
    (addToCart u pid q st).2.discountCodes = st.discountCodes := by
  rcases addToCart_snd_shape u pid q st with h | h | ⟨nq, h⟩ | ⟨p, -, -, h⟩ <;>
    rw [h] <;> simp [updateCart]

theorem addToCart_orderCounter (u pid : String) (q : ℚ) (st : DataStore) :
    (addToCart u pid q st).2.orderCounter = st.orderCounter := by
  rcases addToCart_snd_shape u pid q st with h | h | ⟨nq, h⟩ | ⟨p, -, -, h⟩ <;>
    rw [h] <;> simp [updateCart]

theorem addToCart_config (u pid : String) (q : ℚ) (st : DataStore) :
    (addToCart u pid q st).2.config = st.config := by
  rcases addToCart_snd_shape u pid q st with h | h | ⟨nq, h⟩ | ⟨p, -, -, h⟩ <;>
    rw [h] <;> simp [updateCart]

theorem updateCartItem_products (u pid : String) (q : ℚ) (st : DataStore) :
    (updateCartItem u pid q st).2.products = st.products := by
  rcases updateCartItem_snd_shape u pid q st with h | h | h | ⟨nq, h⟩ <;>
    rw [h] <;> simp [updateCart]

theorem updateCartItem_orders (u pid : String) (q : ℚ) (st : DataStore) :
    (updateCartItem u pid q st).2.orders = st.orders := by
  rcases updateCartItem_snd_shape u pid q st with h | h | h | ⟨nq, h⟩ <;>
    rw [h] <;> simp [updateCart]

theorem updateCartItem_discountCodes (u pid : String) (q : ℚ) (st : DataStore) :
    (updateCartItem u pid q st).2.discountCodes = st.discountCodes := by
  rcases updateCartItem_snd_shape u pid q st with h | h | h | ⟨nq, h⟩ <;>
    rw [h] <;> simp [updateCart]

theorem updateCartItem_orderCounter (u pid : String) (q : ℚ) (st : DataStore) :
    (updateCartItem u pid q st).2.orderCounter = st.orderCounter := by
  rcases updateCartItem_snd_shape u pid q st with h | h | h | ⟨nq, h⟩ <;>
    rw [h] <;> simp [updateCart]

theorem updateCartItem_config (u pid : String) (q : ℚ) (st : DataStore) :
    (updateCartItem u pid q st).2.config = st.config := by
  rcases updateCartItem_snd_shape u pid q st with h | h | h | ⟨nq, h⟩ <;>
    rw [h] <;> simp [updateCart]

/-! ### `codeUsed` preservation helpers -/

theorem codeUsed_congr {a b : DataStore} (h : a.discountCodes = b.discountCodes)
    (code : String) : codeUsed code a → codeUsed code b := by
  intro ⟨d, hd, hu⟩
  exact ⟨d, h ▸ hd, hu⟩

theorem markDiscountAsUsed_preserves_used {code : String} {st : DataStore}
    (h : codeUsed code st) (c2 : String) (now : ℕ) :
    codeUsed code (markDiscountAsUsed st c2 now) := by
  obtain ⟨d, hd, hu⟩ := h
  unfold markDiscountAsUsed
  rcases hl : lookupKey c2 st.discountCodes with _ | d2
  · exact ⟨d, hd, hu⟩
  · by_cases hc : c2 = code
    · subst hc
      exact ⟨{ d2 with used := true, usedAt := some now }, by
        simp [lookupKey_setKey_self], rfl⟩
    · refine ⟨d, ?_, hu⟩
      show lookupKey code (setKey c2 _ st.discountCodes) = some d
      rw [lookupKey_setKey_ne _ _ hc]
      exact hd

theorem generateDiscountCode_preserves_lookup {code fc : String} (hne : fc ≠ code)
    (n : ℤ) (now : ℕ) (st : DataStore) :
    lookupKey code (generateDiscountCode n fc now st).2.discountCodes =
      lookupKey code st.discountCodes := by
  unfold generateDiscountCode
  split
  · show lookupKey code ((createDiscountCode st fc _).discountCodes) = _
    unfold createDiscountCode
    exact lookupKey_setKey_ne _ _ hne
  · rfl

theorem codeUsed_generate {code fc : String} {st : DataStore}
    (h : codeUsed code st) (hne : fc ≠ code) (n : ℤ) (now : ℕ) :
    codeUsed code (generateDiscountCode n fc now st).2 := by
  obtain ⟨d, hd, hu⟩ := h
  exact ⟨d, by rw [generateDiscountCode_preserves_lookup hne]; exact hd, hu⟩

theorem finishCheckout_snd_none (u : String) (ap : Option AppliedDiscount)
    (oid fc : String) (now : ℕ) (cart : CartView) (st1 : DataStore) :
    (finishCheckout u none ap oid fc now cart st1).2 =
      (generateDiscountCode
        ((dsClearCart (updateProductStock (mkOrder u none ap oid now cart).items
            (createOrder st1 (mkOrder u none ap oid now cart))) u).orderCounter)
        fc now
        (dsClearCart (updateProductStock (mkOrder u none ap oid now cart).items
            (createOrder st1 (mkOrder u none ap oid now cart))) u)).2 := rfl

theorem finishCheckout_snd_some (u c : String) (ap : Option AppliedDiscount)
    (oid fc : String) (now : ℕ) (cart : CartView) (st1 : DataStore) :
    (finishCheckout u (some c) ap oid fc now cart st1).2 =
      (generateDiscountCode
        ((dsClearCart (updateProductStock (mkOrder u (some c) ap oid now cart).items
            (markDiscountAsUsed (createOrder st1 (mkOrder u (some c) ap oid now cart))
              c now)) u).orderCounter)
        fc now
        (dsClearCart (updateProductStock (mkOrder u (some c) ap oid now cart).items
            (markDiscountAsUsed (createOrder st1 (mkOrder u (some c) ap oid now cart))
              c now)) u)).2 := rfl

theorem finishCheckout_preserves_used {code : String} {st1 : DataStore}
    (u : String) (oc : Option String) (ap : Option AppliedDiscount)
    (oid fc : String) (now : ℕ) (cart : CartView)
    (h : codeUsed code st1) (hne : fc ≠ code) :
    codeUsed code (finishCheckout u oc ap oid fc now cart st1).2 := by
  cases oc with
  | none =>
    rw [finishCheckout_snd_none]
    refine codeUsed_generate ?_ hne _ _
    refine codeUsed_congr (a := createOrder st1 (mkOrder u none ap oid now cart))
      (by simp) code ?_
    exact codeUsed_congr (by simp) code h
  | some c =>
    rw [finishCheckout_snd_some]
    refine codeUsed_generate ?_ hne _ _
    refine codeUsed_congr
      (a := markDiscountAsUsed (createOrder st1 (mkOrder u (some c) ap oid now cart)) c now)
      (by simp) code ?_
    refine markDiscountAsUsed_preserves_used ?_ c now
    exact codeUsed_congr (by simp) code h

/-! ### Cart uniqueness (`Nodup`) helpers -/

theorem bumpQty_map_productId (pid : String) (nq : ℚ) (items : List CartItem) :
    (bumpQty pid nq items).map (fun it => it.productId) =
      items.map (fun it => it.productId) := by
  induction items with
  | nil => rfl
  | cons it rest ih => by_cases h : it.productId = pid <;> simp [bumpQty, h, ih]

theorem removeFirst_sublist (pid : String) (items : List CartItem) :
    (removeFirst pid items).Sublist items := by
  induction items with
  | nil => exact List.Sublist.refl _
  | cons it rest ih =>
    by_cases h : it.productId = pid <;> simp only [removeFirst, h]
    · simp
    · exact List.Sublist.cons₂ it ih

theorem stocksNonneg_congr {a b : DataStore} (h : a.products = b.products) :
    stocksNonneg a → stocksNonneg b := by
  intro hs pid p hp
  exact hs pid p (by rw [h]; exact hp)

theorem cartsNodup_congr {a b : DataStore} (h : a.carts = b.carts) :
    cartsNodup a → cartsNodup b := by
  intro hc u c hl
  exact hc u c (by rw [h]; exact hl)

theorem cartsNodup_setCart {st : DataStore} (h : cartsNodup st) {c : Cart}
    (hc : (c.items.map (fun it => it.productId)).Nodup) (u : String) :
    cartsNodup { st with carts := setKey u c st.carts } := by
  intro u' c' hl
  replace hl : lookupKey u' (setKey u c st.carts) = some c' := hl
  rw [lookupKey_setKey] at hl
  by_cases hu : u = u'
  · rw [if_pos hu] at hl
    obtain rfl : c = c' := by simpa using hl
    exact hc
  · rw [if_neg hu] at hl
    exact h u' c' hl

theorem cartsNodup_dsGetCart {st : DataStore} (h : cartsNodup st) (u : String) :
    cartsNodup (dsGetCart st u).2 := by
  unfold dsGetCart
  rcases hl : lookupKey u st.carts with _ | c <;> simp only [hl]
  · exact cartsNodup_setCart h (by simp) u
  · exact h

theorem cartsNodup_getCartView {st : DataStore} (h : cartsNodup st) (u : String) :
    cartsNodup (getCartView u st).2 := by
  rw [getCartView_eq]
  exact cartsNodup_dsGetCart h u

theorem dsGetCart_items_nodup {st : DataStore} (h : cartsNodup st) (u : String) :
    (((dsGetCart st u).1.items).map (fun it => it.productId)).Nodup := by
  unfold dsGetCart
  rcases hl : lookupKey u st.carts with _ | c <;> simp only [hl]
  · simp
  · exact h u c hl

theorem getCartView_items_nodup {st : DataStore} (h : cartsNodup st) (u : String) :
    (((getCartView u st).1.items).map (fun it => it.productId)).Nodup := by
  rw [getCartView_eq]
  exact dsGetCart_items_nodup h u

theorem stocksNonneg_initial : stocksNonneg initialStore := by
  intro pid p h
  have hm := lookupKey_mem h
  simp only [initialStore, initialProducts, List.mem_cons, List.not_mem_nil, or_false,
    Prod.mk.injEq] at hm
  rcases hm with ⟨-, rfl⟩ | ⟨-, rfl⟩ | ⟨-, rfl⟩ | ⟨-, rfl⟩ | ⟨-, rfl⟩ <;> norm_num

theorem cartsNodup_initial : cartsNodup initialStore := by
  intro u c h
  simp [initialStore, lookupKey] at h

theorem storeInv_initial : StoreInv initialStore :=
  ⟨stocksNonneg_initial, cartsNodup_initial⟩

/-! ### Claim theorems -/

/-- C6: for every amount and percentage, `applyDiscount` returns
`discount = amount * percentage / 100` rounded to 2 decimals and
`finalAmount = amount - discount` computed from the unrounded discount and
then rounded to 2 decimals, the two rounded independently; in particular
`applyDiscount 100 10` yields `discount = 10` and `finalAmount = 90`. -/
theorem C6_applyDiscount_independent_rounding (amount percentage : ℚ) :
    (applyDiscount amount percentage).discount = round2 (amount * percentage / 100) ∧
    (applyDiscount amount percentage).finalAmount =
      round2 (amount - amount * percentage / 100) ∧
    (applyDiscount 100 10).discount = 10 ∧
    (applyDiscount 100 10).finalAmount = 90 :=
  ⟨rfl, rfl, by norm_num [applyDiscount, round2], by norm_num [applyDiscount, round2]⟩

/-- C10: when `nthOrder ≠ 0`, `generateDiscountCode 0` does not return
`none`: `0 % nthOrder = 0`, so a fresh unused code is created and stored in
the registry with `orderNumber = 0`; likewise every non-positive multiple of
`nthOrder` generates a code; and only the admin route's falsy check on
`orderNumber` rejects `0` before the service is reached. -/
theorem C10_generate_at_zero (st : DataStore) (fc : String) (now : ℕ)
    (hn : st.config.nthOrder ≠ 0) :
    (∃ info, (generateDiscountCode 0 fc now st).1 = some info ∧
       info.orderNumber = 0 ∧ info.used = false ∧
       lookupKey fc (generateDiscountCode 0 fc now st).2.discountCodes = some info) ∧
    (∀ n : ℤ, n ≤ 0 → st.config.nthOrder ∣ n →
       ((generateDiscountCode n fc now st).1).isSome = true) ∧
    adminGenerateDiscount 0 fc now st = (.error "orderNumber is required", st) := by
  have hq0 : qualifiesNth 0 st.config.nthOrder = true := by
    simp [qualifiesNth, hn, Int.zero_tmod]
  refine ⟨⟨⟨fc, st.config.discountPercentage, now, false, none, 0⟩, ?_, rfl, rfl, ?_⟩,
    ?_, ?_⟩
  · simp [generateDiscountCode, hq0]
  · simp [generateDiscountCode, hq0, createDiscountCode, lookupKey_setKey_self]
  · intro n hn0 hdvd
    have hq : qualifiesNth n st.config.nthOrder = true := by
      simp [qualifiesNth, hn, Int.tmod_eq_zero_of_dvd hdvd]
    simp [generateDiscountCode, hq]
  · simp [adminGenerateDiscount]

/-- Witness for C10 at the seeded store (`nthOrder = 3`). -/
theorem C10_witness :
    ∃ info, (generateDiscountCode 0 "DISC-X" 0 initialStore).1 = some info ∧
      info.orderNumber = 0 := by
  obtain ⟨⟨info, h1, h2, -, -⟩, -, -⟩ :=
    C10_generate_at_zero initialStore "DISC-X" 0 (by decide)
  exact ⟨info, h1, h2⟩

/-- C8 counterexample: the quantity `3/2` is a positive non-integer, yet
`addToCart` succeeds on the seeded store — the code only checks
`quantity <= 0`, never integrality, so the claim "fails whenever quantity is
not a positive integer" is false. -/
theorem C8_counterexample :
    (¬ ∃ k : ℤ, ((3 : ℚ) / 2) = (k : ℚ)) ∧
    exOk (addToCart "u" "1" (3 / 2) initialStore).1 = true := by
  constructor
  · rintro ⟨k, hk⟩
    have h2 : (2 : ℚ) * k = 3 := by rw [← hk]; ring
    have h3 : (2 * k : ℤ) = 3 := by exact_mod_cast h2
    omega
  · norm_num [addToCart, exOk, getProduct, initialStore, initialProducts, lookupKey,
      dsGetCart, getCartView, updateCart, setKey, cartSubtotal, cartTotalItems, round2,
      List.find?, (show ¬("u" = "" ∨ "1" = "") by decide)]

/-- C8 (amended): `addToCart` fails (with a signaled error) whenever the
quantity is not positive — zero or negative — and performs no state change;
positive fractional quantities are not rejected. -/
theorem C8_nonpositive_quantity_rejected (u pid : String) (q : ℚ) (st : DataStore)
    (h : q ≤ 0) :
    exOk (addToCart u pid q st).1 = false ∧ (addToCart u pid q st).2 = st := by
  unfold addToCart
  split
  · exact ⟨rfl, rfl⟩
  · exact ⟨rfl, rfl⟩


/-- Witness for the amended C8 at quantity `0`. -/
theorem C8_witness :
    exOk (addToCart "u" "1" 0 initialStore).1 = false ∧
    (addToCart "u" "1" 0 initialStore).2 = initialStore :=
  C8_nonpositive_quantity_rejected "u" "1" 0 initialStore (by norm_num)

/-- C1: a checkout that fails in its validation phase signals the
validation's failure message (either the cart validation's or the discount
validation's) and leaves the ledger, the counter, the catalog, the discount
registry, and the user's cart view unchanged. -/
theorem C1_failed_checkout_no_side_effects (u : String) (dc : Option String)
    (oid fc : String) (now : ℕ) (st : DataStore) (e : String)
    (h : (checkout u dc oid fc now st).1 = .error e) :
    (checkout u dc oid fc now st).2.orders = st.orders ∧
    (checkout u dc oid fc now st).2.orderCounter = st.orderCounter ∧
    (checkout u dc oid fc now st).2.products = st.products ∧
    (checkout u dc oid fc now st).2.discountCodes = st.discountCodes ∧
    (getCartView u (checkout u dc oid fc now st).2).1 = (getCartView u st).1 ∧
    ((validateCart u st).1 = .error e ∨
      ∃ c, dc = some c ∧ ∃ ua, validateDiscountCode c st = .invalid e ua) := by
  obtain ⟨hst, hval⟩ := checkout_error_cases h
  rw [hst]
  refine ⟨by simp, by simp, by simp, by simp, ?_, hval⟩
  rw [getCartView_stable]

/-- Witness for C1: checkout on an empty cart fails with "Cart is empty" and
changes nothing. -/
theorem C1_witness :
    (checkout "u" none "o" "f" 0 initialStore).1 = .error "Cart is empty" ∧
    (checkout "u" none "o" "f" 0 initialStore).2.orders = initialStore.orders ∧
    (checkout "u" none "o" "f" 0 initialStore).2.orderCounter =
      initialStore.orderCounter ∧
    (checkout "u" none "o" "f" 0 initialStore).2.products = initialStore.products := by
  have h : (checkout "u" none "o" "f" 0 initialStore).1 = .error "Cart is empty" := by
    norm_num [checkout, validateCart, getCartView, dsGetCart, lookupKey, setKey,
      initialStore, cartSubtotal, cartTotalItems, round2, checkItems]
  obtain ⟨h1, h2, h3, -, -, -⟩ :=
    C1_failed_checkout_no_side_effects "u" none "o" "f" 0 initialStore _ h
  exact ⟨h, h1, h2, h3⟩

/-- C2: every successful checkout increments the global order counter by
exactly one, and the reward is minted from the post-increment counter: the
returned `newDiscountCode` is non-null exactly when the post-increment
counter is a multiple of `nthOrder` (so, from a fresh store, exactly the
Kth committed order with `nthOrder ∣ K` earns the reward), and a minted
reward carries the fresh unique code. -/
theorem C2_counter_increment_and_nth_reward (u : String) (dc : Option String)
    (oid fc : String) (now : ℕ) (st : DataStore)
    (h : exOk (checkout u dc oid fc now st).1 = true) :
    (checkout u dc oid fc now st).2.orderCounter = st.orderCounter + 1 ∧
    ((resNewCode (checkout u dc oid fc now st).1).isSome = true ↔
      qualifiesNth (st.orderCounter + 1) st.config.nthOrder = true) ∧
    (∀ nc, resNewCode (checkout u dc oid fc now st).1 = some nc → nc.code = fc) := by
  obtain ⟨-, oc, ap, hsh⟩ := checkout_ok_shape h
  rw [hsh]
  refine ⟨?_, ?_, ?_⟩
  · rw [finishCheckout_snd_orderCounter]
    simp
  · rw [finishCheckout_fst]
    simp only [resNewCode_ok, getCartView_snd_orderCounter, getCartView_snd_config]
    split <;> simp_all
  · intro nc hnc
    rw [finishCheckout_fst] at hnc
    simp only [resNewCode_ok, getCartView_snd_orderCounter, getCartView_snd_config] at hnc
    split at hnc
    · simp only [Option.some.injEq] at hnc
      rw [← hnc]
    · simp at hnc

/-- Witness for C2 at a store with counter 2 and `nthOrder = 3`: the third
checkout increments the counter to 3 and earns a reward. -/
theorem C2_witness :
    (checkout "u" none "o" "f" 0 wChkSt).2.orderCounter = wChkSt.orderCounter + 1 ∧
    ((resNewCode (checkout "u" none "o" "f" 0 wChkSt).1).isSome = true ↔
      qualifiesNth (wChkSt.orderCounter + 1) wChkSt.config.nthOrder = true) := by
  have h : exOk (checkout "u" none "o" "f" 0 wChkSt).1 = true := by
    norm_num [wChkSt, checkout, validateCart, getCartView, dsGetCart, lookupKey, setKey,
      checkItems, getProduct, initialStore, initialProducts, cartSubtotal, cartTotalItems,
      round2, finishCheckout, mkOrder, createOrder, markDiscountAsUsed, updateProductStock,
      dsClearCart, generateDiscountCode, qualifiesNth, exOk, createDiscountCode,
      getOrderCount, Int.tmod]
  obtain ⟨h1, h2, -⟩ := C2_counter_increment_and_nth_reward "u" none "o" "f" 0 wChkSt h
  exact ⟨h1, h2⟩

/-- C3: a successful checkout with no discount code yields an order with
`discount = 0`, `subtotal` and `finalAmount` both equal to the cart view's
subtotal at commit time, `discountCode = null`, `discountPercentage = 0`,
status `"completed"`, and an item list equal to (a deep copy of) the cart
lines at commit time. -/
theorem C3_no_code_order_fields (u oid fc : String) (now : ℕ) (st : DataStore)
    (h : exOk (checkout u none oid fc now st).1 = true) :
    (resOrder (checkout u none oid fc now st).1).discount = 0 ∧
    (resOrder (checkout u none oid fc now st).1).subtotal =
      (getCartView u st).1.subtotal ∧
    (resOrder (checkout u none oid fc now st).1).finalAmount =
      (getCartView u st).1.subtotal ∧
    (resOrder (checkout u none oid fc now st).1).discountCode = none ∧
    (resOrder (checkout u none oid fc now st).1).discountPercentage = 0 ∧
    (resOrder (checkout u none oid fc now st).1).status = "completed" ∧
    (resOrder (checkout u none oid fc now st).1).items = (getCartView u st).1.items := by
  have hsh := checkout_none_ok h
  rw [hsh, finishCheckout_fst]
  exact ⟨rfl, rfl, rfl, rfl, rfl, rfl, rfl⟩

/-- Witness for C3: checkout of a cart holding quantity 2 of the
1000-priced Laptop yields subtotal 2000, finalAmount 2000, discount 0. -/
theorem C3_witness :
    exOk (checkout "u" none "o" "f" 0 wChkSt).1 = true ∧
    (resOrder (checkout "u" none "o" "f" 0 wChkSt).1).subtotal = 2000 ∧
    (resOrder (checkout "u" none "o" "f" 0 wChkSt).1).finalAmount = 2000 ∧
    (resOrder (checkout "u" none "o" "f" 0 wChkSt).1).discount = 0 := by
  have h : exOk (checkout "u" none "o" "f" 0 wChkSt).1 = true := by
    norm_num [wChkSt, checkout, validateCart, getCartView, dsGetCart, lookupKey, setKey,
      checkItems, getProduct, initialStore, initialProducts, cartSubtotal, cartTotalItems,
      round2, finishCheckout, mkOrder, createOrder, markDiscountAsUsed, updateProductStock,
      dsClearCart, generateDiscountCode, qualifiesNth, exOk, createDiscountCode,
      getOrderCount, Int.tmod]
  have hsub : (getCartView "u" wChkSt).1.subtotal = 2000 := by
    norm_num [getCartView, dsGetCart, lookupKey, wChkSt, initialStore, cartSubtotal,
      cartTotalItems, round2]
  obtain ⟨h1, h2, h3, -, -, -, -⟩ := C3_no_code_order_fields "u" "o" "f" 0 wChkSt h
  exact ⟨h, by rw [h2, hsub], by rw [h3, hsub], h1⟩

/-- C4: on a successful checkout each ordered product's stock is decremented
by exactly its order-line quantity (products not in the order are
unchanged, and products absent from the catalog stay absent) and the user's
cart is left empty; on a failed checkout no product's stock changes. -/
theorem C4_stock_decrement_and_cart_cleared (u : String) (dc : Option String)
    (oid fc : String) (now : ℕ) (st : DataStore)
    (hnd : (((getCartView u st).1.items).map (fun it => it.productId)).Nodup) :
    (exOk (checkout u dc oid fc now st).1 = true →
      (∀ pid, lookupKey pid (checkout u dc oid fc now st).2.products =
        (lookupKey pid st.products).map
          (fun p => { p with stock := p.stock - qtyOf pid (getCartView u st).1.items })) ∧
      (getCartView u (checkout u dc oid fc now st).2).1.items = []) ∧
    (exOk (checkout u dc oid fc now st).1 = false →
      (checkout u dc oid fc now st).2.products = st.products) := by
  constructor
  · intro h
    obtain ⟨-, oc, ap, hsh⟩ := checkout_ok_shape h
    rw [hsh]
    constructor
    · intro pid
      rw [finishCheckout_snd_products u oc ap oid fc now _ _ pid hnd,
        getCartView_snd_products]
    · rw [getCartView_eq]
      show (dsGetCart (finishCheckout u oc ap oid fc now (getCartView u st).1
        (getCartView u st).2).2 u).1.items = []
      unfold dsGetCart
      rw [finishCheckout_snd_carts, lookupKey_setKey_self]
  · intro h
    rcases hres : (checkout u dc oid fc now st).1 with e | r
    · obtain ⟨hst, -⟩ := checkout_error_cases hres
      rw [hst]
      simp
    · rw [hres] at h
      simp [exOk] at h

/-- Witness for C4: after checking out 2 Laptops (stock 10) the Laptop's
stock is 8 and the cart is empty. -/
theorem C4_witness :
    exOk (checkout "u" none "o" "f" 0 wChkSt).1 = true ∧
    lookupKey "1" (checkout "u" none "o" "f" 0 wChkSt).2.products =
      some ⟨"1", "Laptop", 1000, 8⟩ ∧
    (getCartView "u" (checkout "u" none "o" "f" 0 wChkSt).2).1.items = [] := by
  have hnd : (((getCartView "u" wChkSt).1.items).map (fun it => it.productId)).Nodup := by
    norm_num [getCartView, dsGetCart, lookupKey, wChkSt, initialStore, cartSubtotal,
      cartTotalItems, round2]
  have h : exOk (checkout "u" none "o" "f" 0 wChkSt).1 = true := by
    norm_num [wChkSt, checkout, validateCart, getCartView, dsGetCart, lookupKey, setKey,
      checkItems, getProduct, initialStore, initialProducts, cartSubtotal, cartTotalItems,
      round2, finishCheckout, mkOrder, createOrder, markDiscountAsUsed, updateProductStock,
      dsClearCart, generateDiscountCode, qualifiesNth, exOk, createDiscountCode,
      getOrderCount, Int.tmod]
  obtain ⟨hsucc, -⟩ := C4_stock_decrement_and_cart_cleared "u" none "o" "f" 0 wChkSt hnd
  obtain ⟨hprod, hcart⟩ := hsucc h
  refine ⟨h, ?_, hcart⟩
  rw [hprod "1"]
  norm_num [wChkSt, initialStore, initialProducts, lookupKey, qtyOf, getCartView,
    dsGetCart, cartSubtotal, cartTotalItems, round2, List.find?]

/-- C5: once a discount code's record has `used = true` the state is
terminal: validating it always reports "Discount code has already been
used" carrying the stored usage timestamp (validation is read-only, so any
number of repeated attempts behaves the same), and no public operation —
cart operations, marking, generation with a distinct fresh code, or a whole
checkout with a distinct fresh code — ever resets `used` to `false`. -/
theorem C5_used_code_is_terminal (code : String) (st : DataStore) (d : DiscountInfo)
    (hc : lookupKey code st.discountCodes = some d) (hu : d.used = true)
    (hne : code ≠ "") :
    validateDiscountCode code st =
      .invalid "Discount code has already been used" d.usedAt ∧
    (∀ u pid q, codeUsed code (addToCart u pid q st).2) ∧
    (∀ u pid q, codeUsed code (updateCartItem u pid q st).2) ∧
    (∀ u pid, codeUsed code (removeFromCart u pid st).2) ∧
    (∀ u, codeUsed code (clearCartS u st)) ∧
    (∀ c2 now, codeUsed code (markDiscountAsUsed st c2 now)) ∧
    (∀ n fc now, fc ≠ code → codeUsed code (generateDiscountCode n fc now st).2) ∧
    (∀ u dc oid fc now, fc ≠ code → codeUsed code (checkout u dc oid fc now st).2) := by
  have hcu : codeUsed code st := ⟨d, hc, hu⟩
  refine ⟨?_, ?_, ?_, ?_, ?_, ?_, ?_, ?_⟩
  · simp [validateDiscountCode, hne, hc, hu]
  · intro u pid q
    exact codeUsed_congr (addToCart_discountCodes u pid q st).symm code hcu
  · intro u pid q
    exact codeUsed_congr (updateCartItem_discountCodes u pid q st).symm code hcu
  · intro u pid
    exact codeUsed_congr (updateCartItem_discountCodes u pid 0 st).symm code hcu
  · intro u
    exact codeUsed_congr rfl code hcu
  · intro c2 now
    exact markDiscountAsUsed_preserves_used hcu c2 now
  · intro n fc now hfc
    exact codeUsed_generate hcu hfc n now
  · intro u dc oid fc now hfc
    rcases hres : (checkout u dc oid fc now st).1 with e | r
    · obtain ⟨hst, -⟩ := checkout_error_cases hres
      rw [hst]
      exact codeUsed_congr (by simp) code hcu
    · have hok : exOk (checkout u dc oid fc now st).1 = true := by rw [hres]; rfl
      obtain ⟨-, oc, ap, hsh⟩ := checkout_ok_shape hok
      rw [hsh]
      exact finishCheckout_preserves_used u oc ap oid fc now _
        (codeUsed_congr (by simp) code hcu) hfc

/-- Witness for C5 on a store holding a consumed code `DISC-A` (used at
time 7). -/
theorem C5_witness :
    validateDiscountCode "DISC-A" wUsedSt =
      .invalid "Discount code has already been used" (some 7) ∧
    codeUsed "DISC-A" (markDiscountAsUsed wUsedSt "DISC-A" 9) := by
  have hc : lookupKey "DISC-A" wUsedSt.discountCodes =
      some ⟨"DISC-A", 10, 0, true, some 7, 3⟩ := by
    norm_num [wUsedSt, initialStore, lookupKey]
  obtain ⟨h1, -, -, -, -, h6, -, -⟩ :=
    C5_used_code_is_terminal "DISC-A" wUsedSt _ hc rfl (by decide)
  exact ⟨h1, h6 "DISC-A" 9⟩

/-! ### Precise `addToCart` evaluation lemmas (for C7) -/

theorem dsGetCart_of_mem {st : DataStore} {u : String} {c : Cart}
    (h : lookupKey u st.carts = some c) : dsGetCart st u = (c, st) := by
  unfold dsGetCart
  rw [h]

theorem getCartView_snd_of_mem {st : DataStore} {u : String} {c : Cart}
    (h : lookupKey u st.carts = some c) : (getCartView u st).2 = st := by
  rw [getCartView_eq, dsGetCart_of_mem h]

theorem find?_append_single {l : List CartItem} {x : CartItem} {pred : CartItem → Bool}
    (h : l.find? pred = none) (hx : pred x = true) :
    (l ++ [x]).find? pred = some x := by
  induction l with
  | nil => simp [List.find?, hx]
  | cons hd tl ih =>
    have hhd : pred hd = false := by
      have := List.find?_eq_none.mp h hd (by simp)
      simpa using this
    have htl : tl.find? pred = none := by
      rw [List.find?] at h
      rw [hhd] at h
      exact h
    simpa [List.find?, hhd] using ih htl

theorem bumpQty_append_last {l : List CartItem} {pid : String} {nq : ℚ} {x : CartItem}
    (h : ∀ it ∈ l, ¬(it.productId = pid)) (hx : x.productId = pid) :
    bumpQty pid nq (l ++ [x]) = l ++ [{ x with quantity := nq }] := by
  induction l with
  | nil => simp [bumpQty, hx]
  | cons hd tl ih =>
    have hhd := h hd (by simp)
    simp only [List.cons_append, bumpQty, if_neg hhd, List.append_eq]
    rw [ih (fun it hit => h it (by simp [hit]))]

theorem addToCart_insufficient (u pid : String) (q : ℚ) (st : DataStore) (p : Product)
    (hu : u ≠ "") (hp : pid ≠ "") (hprod : lookupKey pid st.products = some p)
    (hq : ¬q ≤ 0) (hstock : p.stock < q) :
    addToCart u pid q st = (.error (insufficientMsg p.stock), st) := by
  unfold addToCart
  rw [if_neg (by simp [hu, hp]), if_neg hq]
  simp only [getProduct, hprod]
  rw [if_pos hstock]

theorem addToCart_push (u pid : String) (q : ℚ) (st : DataStore) (p : Product)
    (hu : u ≠ "") (hp : pid ≠ "") (hprod : lookupKey pid st.products = some p)
    (hstock : ¬p.stock < q) (hq : ¬q ≤ 0)
    (habs : (dsGetCart st u).1.items.find? (fun it => it.productId == pid) = none) :
    addToCart u pid q st =
      ((.ok (getCartView u (updateCart (dsGetCart st u).2 u
          ⟨(dsGetCart st u).1.userId,
           (dsGetCart st u).1.items ++ [⟨pid, p.name, p.price, q⟩]⟩)).1),
       (getCartView u (updateCart (dsGetCart st u).2 u
          ⟨(dsGetCart st u).1.userId,
           (dsGetCart st u).1.items ++ [⟨pid, p.name, p.price, q⟩]⟩)).2) := by
  unfold addToCart
  rw [if_neg (by simp [hu, hp]), if_neg hq]
  simp only [getProduct, hprod]
  rw [if_neg hstock]
  rcases hg : dsGetCart st u with ⟨c0, st1⟩
  rw [hg] at habs
  simp only at habs
  simp only [hg, habs]

theorem addToCart_merge (u pid : String) (q : ℚ) (st : DataStore) (p : Product)
    (it0 : CartItem)
    (hu : u ≠ "") (hp : pid ≠ "") (hprod : lookupKey pid st.products = some p)
    (hq : ¬q ≤ 0) (hstock : ¬p.stock < q)
    (hfind : (dsGetCart st u).1.items.find? (fun it => it.productId == pid) = some it0) :
    addToCart u pid q st =
      if p.stock < it0.quantity + q then
        (.error (insufficientMsg p.stock), (dsGetCart st u).2)
      else
        ((.ok (getCartView u (updateCart (dsGetCart st u).2 u
            ⟨(dsGetCart st u).1.userId,
             bumpQty pid (it0.quantity + q) (dsGetCart st u).1.items⟩)).1),
         (getCartView u (updateCart (dsGetCart st u).2 u
            ⟨(dsGetCart st u).1.userId,
             bumpQty pid (it0.quantity + q) (dsGetCart st u).1.items⟩)).2) := by
  unfold addToCart
  rw [if_neg (by simp [hu, hp]), if_neg hq]
  simp only [getProduct, hprod]
  rw [if_neg hstock]
  rcases hg : dsGetCart st u with ⟨c0, st1⟩
  rw [hg] at hfind
  simp only at hfind
  simp only [hg, hfind]

/-- C7 counterexample: with the product already in the cart (9 Laptops,
stock 10) and q1 = q2 = 1, `q1 + q2 ≤ stock` holds, yet add-then-add is not
the same as a single add of the sum: the double add leaves 10 in the cart
(its second step fails), while the single add of 2 fails outright and
leaves 9. -/
theorem C7_counterexample :
    (0 : ℚ) < 1 ∧ (1 : ℚ) + 1 ≤ 10 ∧
    lookupKey "1" cexSt.products = some ⟨"1", "Laptop", 1000, 10⟩ ∧
    addToCart "u" "1" 1 (addToCart "u" "1" 1 cexSt).2 ≠ addToCart "u" "1" 2 cexSt := by
  refine ⟨by norm_num, by norm_num, by norm_num [cexSt, initialStore, initialProducts,
    lookupKey], ?_⟩
  intro h
  have h2 := congrArg (fun x => x.2.carts) h
  norm_num [addToCart, cexSt, initialStore, initialProducts, lookupKey, getProduct,
    dsGetCart, getCartView, updateCart, setKey, bumpQty, cartSubtotal, cartTotalItems,
    round2, insufficientMsg, List.find?,
    (show ¬("u" = "" ∨ "1" = "") by decide)] at h2

/-- C7 (amended): for a product not already present in the user's cart,
adding q1 then q2 (both positive) of that product is the same as a single
add of q1 + q2, provided q1 + q2 does not exceed the product's stock; and
when q1 ≤ stock but q1 + q2 exceeds stock, the first add succeeds and the
second add fails with the insufficient-stock error, leaving the
post-first-add state unchanged. -/
theorem C7_double_add_merges (u pid : String) (st : DataStore) (p : Product)
    (q1 q2 : ℚ) (hu : u ≠ "") (hp : pid ≠ "")
    (hprod : lookupKey pid st.products = some p)
    (habs : (dsGetCart st u).1.items.find? (fun it => it.productId == pid) = none)
    (h1 : 0 < q1) (h2 : 0 < q2) :
    (q1 + q2 ≤ p.stock →
      addToCart u pid q2 (addToCart u pid q1 st).2 = addToCart u pid (q1 + q2) st) ∧
    (q1 ≤ p.stock → p.stock < q1 + q2 →
      (addToCart u pid q2 (addToCart u pid q1 st).2).1 =
        .error (insufficientMsg p.stock) ∧
      (addToCart u pid q2 (addToCart u pid q1 st).2).2 = (addToCart u pid q1 st).2) := by
  have hq1 : ¬q1 ≤ 0 := not_le.mpr h1
  have hq2 : ¬q2 ≤ 0 := not_le.mpr h2
  have hnp : ∀ it ∈ (dsGetCart st u).1.items, ¬(it.productId = pid) := by
    intro it hit
    have := List.find?_eq_none.mp habs it hit
    simpa using this
  constructor
  · intro hle
    have hs1 : ¬p.stock < q1 := not_lt.mpr (by linarith)
    have hA := addToCart_push u pid q1 st p hu hp hprod hs1 hq1 habs
    have hmem1 : lookupKey u (updateCart (dsGetCart st u).2 u
        ⟨(dsGetCart st u).1.userId,
         (dsGetCart st u).1.items ++ [⟨pid, p.name, p.price, q1⟩]⟩).carts =
        some ⟨(dsGetCart st u).1.userId,
         (dsGetCart st u).1.items ++ [⟨pid, p.name, p.price, q1⟩]⟩ :=
      lookupKey_setKey_self u _ (dsGetCart st u).2.carts
    have hA2 : (addToCart u pid q1 st).2 = updateCart (dsGetCart st u).2 u
        ⟨(dsGetCart st u).1.userId,
         (dsGetCart st u).1.items ++ [⟨pid, p.name, p.price, q1⟩]⟩ := by
      rw [hA]
      exact getCartView_snd_of_mem hmem1
    have hprodA : lookupKey pid (updateCart (dsGetCart st u).2 u
        ⟨(dsGetCart st u).1.userId,
         (dsGetCart st u).1.items ++ [⟨pid, p.name, p.price, q1⟩]⟩).products = some p := by
      show lookupKey pid (dsGetCart st u).2.products = some p
      rw [dsGetCart_products]
      exact hprod
    have hfound : (dsGetCart (updateCart (dsGetCart st u).2 u
        ⟨(dsGetCart st u).1.userId,
         (dsGetCart st u).1.items ++ [⟨pid, p.name, p.price, q1⟩]⟩) u).1.items.find?
          (fun it => it.productId == pid) = some ⟨pid, p.name, p.price, q1⟩ := by
      rw [dsGetCart_of_mem hmem1]
      exact find?_append_single habs (by simp)
    have hs2 : ¬p.stock < q2 := not_lt.mpr (by linarith)
    have hB := addToCart_merge u pid q2 _ p ⟨pid, p.name, p.price, q1⟩ hu hp hprodA hq2
      hs2 hfound
    rw [hA2, hB, if_neg (show ¬p.stock < (⟨pid, p.name, p.price, q1⟩ : CartItem).quantity
      + q2 by simpa using not_lt.mpr hle)]
    rw [dsGetCart_of_mem hmem1]
    have hbump : bumpQty pid ((⟨pid, p.name, p.price, q1⟩ : CartItem).quantity + q2)
        ((dsGetCart st u).1.items ++ [⟨pid, p.name, p.price, q1⟩]) =
        (dsGetCart st u).1.items ++ [⟨pid, p.name, p.price, q1 + q2⟩] := by
      rw [bumpQty_append_last hnp rfl]
    rw [addToCart_push u pid (q1 + q2) st p hu hp hprod (not_lt.mpr hle)
      (not_le.mpr (by linarith)) habs]
    simp only [hbump]
    have hSt : updateCart (updateCart (dsGetCart st u).2 u
        ⟨(dsGetCart st u).1.userId,
         (dsGetCart st u).1.items ++ [⟨pid, p.name, p.price, q1⟩]⟩) u
        ⟨(dsGetCart st u).1.userId,
         (dsGetCart st u).1.items ++ [⟨pid, p.name, p.price, q1 + q2⟩]⟩ =
        updateCart (dsGetCart st u).2 u
        ⟨(dsGetCart st u).1.userId,
         (dsGetCart st u).1.items ++ [⟨pid, p.name, p.price, q1 + q2⟩]⟩ := by
      unfold updateCart
      simp [setKey_setKey_self]
    rw [hSt]
  · intro hle1 hlt
    have hs1 : ¬p.stock < q1 := not_lt.mpr hle1
    have hA := addToCart_push u pid q1 st p hu hp hprod hs1 hq1 habs
    have hmem1 : lookupKey u (updateCart (dsGetCart st u).2 u
        ⟨(dsGetCart st u).1.userId,
         (dsGetCart st u).1.items ++ [⟨pid, p.name, p.price, q1⟩]⟩).carts =
        some ⟨(dsGetCart st u).1.userId,
         (dsGetCart st u).1.items ++ [⟨pid, p.name, p.price, q1⟩]⟩ :=
      lookupKey_setKey_self u _ (dsGetCart st u).2.carts
    have hA2 : (addToCart u pid q1 st).2 = updateCart (dsGetCart st u).2 u
        ⟨(dsGetCart st u).1.userId,
         (dsGetCart st u).1.items ++ [⟨pid, p.name, p.price, q1⟩]⟩ := by
      rw [hA]
      exact getCartView_snd_of_mem hmem1
    have hprodA : lookupKey pid (updateCart (dsGetCart st u).2 u
        ⟨(dsGetCart st u).1.userId,
         (dsGetCart st u).1.items ++ [⟨pid, p.name, p.price, q1⟩]⟩).products = some p := by
      show lookupKey pid (dsGetCart st u).2.products = some p
      rw [dsGetCart_products]
      exact hprod
    by_cases hs2 : p.stock < q2
    · have hB := addToCart_insufficient u pid q2 _ p hu hp hprodA hq2 hs2
      rw [hA2, hB]
      exact ⟨rfl, rfl⟩
    · have hfound : (dsGetCart (updateCart (dsGetCart st u).2 u
          ⟨(dsGetCart st u).1.userId,
           (dsGetCart st u).1.items ++ [⟨pid, p.name, p.price, q1⟩]⟩) u).1.items.find?
            (fun it => it.productId == pid) = some ⟨pid, p.name, p.price, q1⟩ := by
        rw [dsGetCart_of_mem hmem1]
        exact find?_append_single habs (by simp)
      have hB := addToCart_merge u pid q2 _ p ⟨pid, p.name, p.price, q1⟩ hu hp hprodA
        hq2 hs2 hfound
      rw [hA2, hB, if_pos (show p.stock < (⟨pid, p.name, p.price, q1⟩ : CartItem).quantity
        + q2 by simpa using hlt)]
      refine ⟨rfl, ?_⟩
      rw [dsGetCart_of_mem hmem1]

/-- Witness for the amended C7: adding 3 then 4 Laptops equals adding 7. -/
theorem C7_witness :
    addToCart "u" "1" 4 (addToCart "u" "1" 3 initialStore).2 =
      addToCart "u" "1" 7 initialStore := by
  have habs : (dsGetCart initialStore "u").1.items.find?
      (fun it => it.productId == "1") = none := by
    norm_num [dsGetCart, lookupKey, initialStore, List.find?]
  have hprod : lookupKey "1" initialStore.products =
      some ⟨"1", "Laptop", 1000, 10⟩ := by
    norm_num [initialStore, initialProducts, lookupKey]
  have h := (C7_double_add_merges "u" "1" initialStore ⟨"1", "Laptop", 1000, 10⟩ 3 4
    (by decide) (by decide) hprod habs (by norm_num) (by norm_num)).1 (by norm_num)
  norm_num at h
  exact h

/-- C9: `stock ≥ 0` is an invariant of the public operations.  `StoreInv`
(non-negative stock plus per-product-unique cart lines, the auxiliary
invariant that makes the stock argument go through) holds of every state
reached from an invariant state by `addToCart`, `updateCartItem`,
`removeFromCart`, `clearCart`, `generateDiscountCode` or `checkout`: the
only stock mutation is checkout's per-line decrement, guarded by
`validateCart` having just checked each line's quantity against live
stock. -/
theorem C9_stock_nonneg_invariant (st : DataStore) (hInv : StoreInv st) :
    stocksNonneg st ∧
    (∀ u pid q, StoreInv (addToCart u pid q st).2) ∧
    (∀ u pid q, StoreInv (updateCartItem u pid q st).2) ∧
    (∀ u pid, StoreInv (removeFromCart u pid st).2) ∧
    (∀ u, StoreInv (clearCartS u st)) ∧
    (∀ n fc now, StoreInv (generateDiscountCode n fc now st).2) ∧
    (∀ u dc oid fc now, StoreInv (checkout u dc oid fc now st).2) := by
  obtain ⟨hs, hcn⟩ := hInv
  refine ⟨hs, ?_, ?_, ?_, ?_, ?_, ?_⟩
  · -- addToCart
    intro u pid q
    refine ⟨stocksNonneg_congr (addToCart_products u pid q st).symm hs, ?_⟩
    rcases addToCart_snd_shape u pid q st with hsh | hsh | ⟨nq, hsh⟩ | ⟨p, hp, hf, hsh⟩ <;>
      rw [hsh]
    · exact hcn
    · exact cartsNodup_dsGetCart hcn u
    · exact cartsNodup_getCartView (cartsNodup_setCart (cartsNodup_dsGetCart hcn u)
        (by rw [bumpQty_map_productId]; exact dsGetCart_items_nodup hcn u) u) u
    · have hnotin : pid ∉ ((dsGetCart st u).1.items.map (fun it => it.productId)) := by
        intro hmem
        rw [List.mem_map] at hmem
        obtain ⟨it, hit, hpid⟩ := hmem
        have := List.find?_eq_none.mp hf it hit
        simp [hpid] at this
      have hnodup : ((((dsGetCart st u).1.items ++
          [(⟨pid, p.name, p.price, q⟩ : CartItem)]).map
          (fun it => it.productId))).Nodup := by
        rw [List.map_append]
        refine List.Nodup.append (dsGetCart_items_nodup hcn u) (by simp) ?_
        intro a ha hb
        simp only [List.map_cons, List.map_nil, List.mem_singleton] at hb
        subst hb
        exact hnotin ha
      exact cartsNodup_getCartView (cartsNodup_setCart (cartsNodup_dsGetCart hcn u)
        hnodup u) u
  · -- updateCartItem
    intro u pid q
    refine ⟨stocksNonneg_congr (updateCartItem_products u pid q st).symm hs, ?_⟩
    rcases updateCartItem_snd_shape u pid q st with hsh | hsh | hsh | ⟨nq, hsh⟩ <;>
      rw [hsh]
    · exact hcn
    · exact cartsNodup_dsGetCart hcn u
    · have hnodup : (((removeFirst pid (dsGetCart st u).1.items)).map
          (fun it => it.productId)).Nodup :=
        (dsGetCart_items_nodup hcn u).sublist
          ((removeFirst_sublist pid (dsGetCart st u).1.items).map _)
      exact cartsNodup_getCartView (cartsNodup_setCart (cartsNodup_dsGetCart hcn u)
        hnodup u) u
    · exact cartsNodup_getCartView (cartsNodup_setCart (cartsNodup_dsGetCart hcn u)
        (by rw [bumpQty_map_productId]; exact dsGetCart_items_nodup hcn u) u) u
  · -- removeFromCart
    intro u pid
    refine ⟨stocksNonneg_congr (updateCartItem_products u pid 0 st).symm hs, ?_⟩
    rcases updateCartItem_snd_shape u pid 0 st with hsh | hsh | hsh | ⟨nq, hsh⟩ <;>
      rw [show (removeFromCart u pid st).2 = (updateCartItem u pid 0 st).2 from rfl, hsh]
    · exact hcn
    · exact cartsNodup_dsGetCart hcn u
    · have hnodup : (((removeFirst pid (dsGetCart st u).1.items)).map
          (fun it => it.productId)).Nodup :=
        (dsGetCart_items_nodup hcn u).sublist
          ((removeFirst_sublist pid (dsGetCart st u).1.items).map _)
      exact cartsNodup_getCartView (cartsNodup_setCart (cartsNodup_dsGetCart hcn u)
        hnodup u) u
    · exact cartsNodup_getCartView (cartsNodup_setCart (cartsNodup_dsGetCart hcn u)
        (by rw [bumpQty_map_productId]; exact dsGetCart_items_nodup hcn u) u) u
  · -- clearCart
    intro u
    exact ⟨stocksNonneg_congr rfl hs, cartsNodup_setCart hcn (by simp) u⟩
  · -- generateDiscountCode
    intro n fc now
    exact ⟨stocksNonneg_congr (generateDiscountCode_snd_products n fc now st).symm hs,
      cartsNodup_congr (generateDiscountCode_snd_carts n fc now st).symm hcn⟩
  · -- checkout
    intro u dc oid fc now
    rcases hres : (checkout u dc oid fc now st).1 with e | r
    · obtain ⟨hst, -⟩ := checkout_error_cases hres
      rw [hst]
      exact ⟨stocksNonneg_congr (getCartView_snd_products st u).symm hs,
        cartsNodup_getCartView hcn u⟩
    · have hok : exOk (checkout u dc oid fc now st).1 = true := by rw [hres]; rfl
      obtain ⟨hval, oc, ap, hsh⟩ := checkout_ok_shape hok
      obtain ⟨-, -, hchk⟩ := validateCart_ok hval
      rw [hsh]
      have hnd := getCartView_items_nodup hcn u
      constructor
      · intro pid p' hp'
        rw [show (finishCheckout u oc ap oid fc now (getCartView u st).1
            (getCartView u st).2).2.products =
            (finishCheckout u oc ap oid fc now (getCartView u st).1
            (getCartView u st).2).2.products from rfl] at hp'
        rw [finishCheckout_snd_products u oc ap oid fc now _ _ pid hnd,
          getCartView_snd_products] at hp'
        rcases hl : lookupKey pid st.products with _ | p0 <;> rw [hl] at hp'
        · simp at hp'
        · have hp'' : ({ p0 with
              stock := p0.stock - qtyOf pid (getCartView u st).1.items } : Product)
              = p' := by simpa using hp'
          rw [← hp'']
          show 0 ≤ p0.stock - qtyOf pid (getCartView u st).1.items
          rcases hf : ((getCartView u st).1.items).find?
              (fun it => it.productId == pid) with _ | it
          · have hq0 : qtyOf pid (getCartView u st).1.items = 0 := by
              simp [qtyOf, hf]
            rw [hq0, sub_zero]
            exact hs pid p0 hl
          · have hqe : qtyOf pid (getCartView u st).1.items = it.quantity := by
              simp [qtyOf, hf]
            have hmem := List.mem_of_find?_eq_some hf
            have hpid : it.productId = pid := by
              have := List.find?_some hf
              simpa using this
            obtain ⟨pp, hpp, hle⟩ := checkItems_none_sound hchk it hmem
            have hpp' : lookupKey pid st.products = some pp := by
              unfold getProduct at hpp
              rw [getCartView_snd_products, hpid] at hpp
              exact hpp
            rw [hl] at hpp'
            obtain rfl : p0 = pp := by simpa using hpp'
            rw [hqe]
            linarith
      · intro u' c' hlk
        replace hlk : lookupKey u' ((finishCheckout u oc ap oid fc now
            (getCartView u st).1 (getCartView u st).2).2.carts) = some c' := hlk
        rw [finishCheckout_snd_carts, lookupKey_setKey] at hlk
        by_cases huu : u = u'
        · rw [if_pos huu] at hlk
          obtain rfl : (⟨u, []⟩ : Cart) = c' := by simpa using hlk
          simp
        · rw [if_neg huu] at hlk
          exact cartsNodup_getCartView hcn u u' c' hlk

/-- Witness for C9: the invariant holds of the seeded store and is kept by
a concrete checkout attempt. -/
theorem C9_witness :
    stocksNonneg initialStore ∧
    StoreInv (checkout "u" none "o" "f" 0 initialStore).2 := by
  obtain ⟨h1, -, -, -, -, -, h7⟩ := C9_stock_nonneg_invariant initialStore storeInv_initial
  exact ⟨h1, h7 "u" none "o" "f" 0⟩
